import Mathlib

/-!
Verification development for the `dao` workflow engine.

The definitions below are a shallow embedding of the Rust sources:

* `crates/dao-core/src/state.rs` — the state model, artifact guards,
  `derive_journey`, `policy_requirement_for_risk`, `LogBuffer`,
  `DiffArtifact::analyze_risk`;
* `crates/dao-core/src/reducer.rs` — the runtime reducer branches for
  artifact updates, approvals and journey recomputation;
* `crates/dao-core/src/policy_engine.rs` — `ReviewPolicy::evaluate`;
* `crates/dao-core/src/persistence.rs` — `replay_workflow_from`;
* `crates/dao-cli/src/main.rs` — the workflow driver's event/snapshot
  discipline (`execute_workflow`, `save_snapshots`).

Machine integers (`u64`, `usize`) are modelled as `Nat`; the saturating
additions of the source are modelled by `sat64`, wrapping increments by
`wrap64`.  Only the state components actually read or written by the
modelled code paths are embedded.
-/

namespace Dao

/-- The `u64::saturating_add` style clamp: `min n (u64::MAX)`. -/
def sat64 (n : Nat) : Nat := min n (2 ^ 64 - 1)

/-- wrapping `u64` arithmetic: reduce modulo `2 ^ 64`. -/
def wrap64 (n : Nat) : Nat := n % 2 ^ 64

/-! ### state.rs: enums -/

/-- The `PolicyTier` from state.rs. -/
inductive PolicyTier
  | Strict
  | Balanced
  | Permissive
  deriving DecidableEq, Repr

/-- The `ApprovalAction` from state.rs. -/
inductive ApprovalAction
  | Read
  | Patch
  | Execute
  | Elicitation
  deriving DecidableEq, Repr

/-- The `ApprovalRiskClass` from state.rs. -/
inductive ApprovalRiskClass
  | ReadOnly
  | PatchOnly
  | Refactor
  | Execution
  | Destructive
  deriving DecidableEq, Repr

/-- The `ApprovalGateRequirement` from state.rs. -/
inductive ApprovalGateRequirement
  | Allow
  | RequireApproval
  | Deny
  deriving DecidableEq, Repr

/-- The `ApprovalDecisionKind` from state.rs. -/
inductive ApprovalDecisionKind
  | Approved
  | Denied
  deriving DecidableEq, Repr

/-- The `ApprovalDecisionKind::label`. -/
def ApprovalDecisionKind.label : ApprovalDecisionKind → String
  | .Approved => "approved"
  | .Denied => "denied"

/-- The `JourneyStep` from state.rs. -/
inductive JourneyStep
  | Idea
  | Understand
  | Plan
  | Preview
  | Approve
  | Verify
  | Learn
  deriving DecidableEq, Repr

/-- The `JourneyState` from state.rs. -/
inductive JourneyState
  | Idle
  | Scanning
  | Planning
  | Diffing
  | ReviewReady
  | AwaitingApproval
  | Verifying
  | Completed
  | Failed
  deriving DecidableEq, Repr

/-- The `ErrorKind` from state.rs. -/
inductive ErrorKind
  | UserInput
  | Runtime
  | External
  | Unknown
  deriving DecidableEq, Repr

/-- The `JourneyError` from state.rs. -/
structure JourneyError where
  kind : ErrorKind
  message : String
  run_id : Nat
  deriving DecidableEq, Repr

/-- The `JourneyStatus` from state.rs. -/
structure JourneyStatus where
  state : JourneyState
  step : JourneyStep
  error : Option JourneyError
  active_run_id : Nat
  deriving DecidableEq, Repr

/-- The `ShellTab` from state.rs. -/
inductive ShellTab
  | Chat
  | Overview
  | Telemetry
  | System
  | Plan
  | Diff
  | Explain
  | Logs
  | FileBrowser
  deriving DecidableEq, Repr

/-- The `ClearReason` from state.rs. -/
inductive ClearReason
  | SessionReset
  | UserRequest
  | Superseded
  | InvalidatedByNewRun
  deriving DecidableEq, Repr

/-! ### state.rs: approval records -/

/-- The `ApprovalRequestRecord` from state.rs. -/
structure ApprovalRequestRecord where
  request_id : String
  run_id : Nat
  action : ApprovalAction
  risk : ApprovalRiskClass
  reason : String
  preview : String
  created_at_ms : Option Nat
  deriving DecidableEq, Repr

/-- The `ApprovalDecisionRecord` from state.rs. -/
structure ApprovalDecisionRecord where
  request_id : String
  run_id : Nat
  action : ApprovalAction
  decision : ApprovalDecisionKind
  timestamp_ms : Nat
  deriving DecidableEq, Repr

/-- The `PendingApproval` from state.rs. -/
structure PendingApproval where
  request : ApprovalRequestRecord
  sequence : Nat
  deriving DecidableEq, Repr

/-- The `PolicyGateState` from state.rs. -/
structure PolicyGateState where
  run_id : Nat
  action : ApprovalAction
  risk : ApprovalRiskClass
  requirement : ApprovalGateRequirement
  reason : String
  deriving DecidableEq, Repr

/-! ### state.rs: artifacts -/

/-- The `ArtifactError` from state.rs. -/
structure ArtifactError where
  kind : ErrorKind
  message : String
  deriving DecidableEq, Repr

/-- The `SystemArtifact` from state.rs (schema_version is the `u16` payload). -/
structure SystemArtifact where
  schema_version : Nat
  run_id : Nat
  artifact_id : Nat
  repo_root : String
  detected_stack : List String
  entrypoints : List String
  risk_flags : List String
  summary : String
  error : Option ArtifactError
  deriving DecidableEq, Repr

/-- The `StepStatus` from state.rs. -/
inductive StepStatus
  | Pending
  | Running
  | Done
  | Failed
  deriving DecidableEq, Repr

/-- The `PlanStep` from state.rs. -/
structure PlanStep where
  id : String
  label : String
  status : StepStatus
  deriving DecidableEq, Repr

/-- The `PlanArtifact` from state.rs. -/
structure PlanArtifact where
  schema_version : Nat
  run_id : Nat
  artifact_id : Nat
  title : String
  steps : List PlanStep
  assumptions : List String
  error : Option ArtifactError
  deriving DecidableEq, Repr

/-- The `DiffFileStatus` from state.rs. -/
inductive DiffFileStatus
  | Added
  | Modified
  | Deleted
  | Renamed
  deriving DecidableEq, Repr

/-- The `DiffLineKind` from state.rs. -/
inductive DiffLineKind
  | Context
  | Add
  | Remove
  deriving DecidableEq, Repr

/-- The `DiffLine` from state.rs. -/
structure DiffLine where
  kind : DiffLineKind
  text : String
  deriving DecidableEq, Repr

/-- The `DiffHunk` from state.rs. -/
structure DiffHunk where
  header : String
  lines : List DiffLine
  deriving DecidableEq, Repr

/-- The `DiffFile` from state.rs. -/
structure DiffFile where
  path : String
  status : DiffFileStatus
  hunks : List DiffHunk
  deriving DecidableEq, Repr

/-- The `DiffArtifact` from state.rs. -/
structure DiffArtifact where
  schema_version : Nat
  run_id : Nat
  artifact_id : Nat
  files : List DiffFile
  summary : String
  error : Option ArtifactError
  deriving DecidableEq, Repr

/-- The `VerifyCheckStatus` from state.rs. -/
inductive VerifyCheckStatus
  | Pending
  | Running
  | Pass
  | Fail
  | Skipped
  deriving DecidableEq, Repr

/-- The `VerifyCheck` from state.rs. -/
structure VerifyCheck where
  name : String
  status : VerifyCheckStatus
  details : Option String
  deriving DecidableEq, Repr

/-- The `VerifyOverall` from state.rs. -/
inductive VerifyOverall
  | Unknown
  | Passing
  | Failing
  deriving DecidableEq, Repr

/-- The `VerifyArtifact` from state.rs. -/
structure VerifyArtifact where
  schema_version : Nat
  run_id : Nat
  artifact_id : Nat
  checks : List VerifyCheck
  overall : VerifyOverall
  error : Option ArtifactError
  deriving DecidableEq, Repr

/-! ### state.rs: log buffer -/

/-- The `LogLevel` from state.rs. -/
inductive LogLevel
  | Trace
  | Debug
  | Info
  | Warn
  | Error
  deriving DecidableEq, Repr

/-- The `LogSource` from state.rs. -/
inductive LogSource
  | App
  | Runtime
  | Shell
  deriving DecidableEq, Repr

/-- The `LogEntry` from state.rs. -/
structure LogEntry where
  seq : Nat
  level : LogLevel
  ts_ms : Option Nat
  source : LogSource
  context : Option String
  message : String
  run_id : Nat
  deriving DecidableEq, Repr

/-- The `LogBuffer` from state.rs: the `VecDeque` is embedded as a list whose
head is the buffer front. -/
structure LogBuffer where
  cap : Nat
  next_seq : Nat
  buf : List LogEntry
  deriving DecidableEq, Repr

/-- The `LogBuffer::new(cap)`. -/
def LogBuffer.new (cap : Nat) : LogBuffer :=
  { cap := cap, next_seq := 1, buf := [] }

/-- The `LogBuffer::append`: stamp the entry with `next_seq`, bump `next_seq`
(wrapping `u64` increment), evict the front when the buffer is at
capacity, and push the entry at the back. -/
def LogBuffer.append (b : LogBuffer) (entry : LogEntry) : LogBuffer :=
  let stamped := { entry with seq := b.next_seq }
  let popped := if b.buf.length = b.cap then b.buf.drop 1 else b.buf
  { b with next_seq := wrap64 (b.next_seq + 1), buf := popped ++ [stamped] }

/-- The `LogBuffer::clear`. -/
def LogBuffer.clear (b : LogBuffer) : LogBuffer :=
  { b with next_seq := 1, buf := [] }

/-! ### state.rs: aggregate state (the components the modelled reducer
branches read or write) -/

/-- The `ShellArtifacts` from state.rs. -/
structure ShellArtifacts where
  schema_version : Nat
  system : Option SystemArtifact
  plan : Option PlanArtifact
  diff : Option DiffArtifact
  verify : Option VerifyArtifact
  logs : LogBuffer
  deriving DecidableEq, Repr

/-- The `RuntimeFlagState` from state.rs. -/
structure RuntimeFlagState where
  active : Bool
  run_id : Nat
  deriving DecidableEq, Repr

/-- The `RuntimeFlags` from state.rs. -/
structure RuntimeFlags where
  scanning : RuntimeFlagState
  planning : RuntimeFlagState
  diffing : RuntimeFlagState
  awaiting_approval : RuntimeFlagState
  verifying : RuntimeFlagState
  next_run_id : Nat
  deriving DecidableEq, Repr

/-- The `RuntimeFlags::clear_all`. -/
def RuntimeFlags.clear_all (f : RuntimeFlags) : RuntimeFlags :=
  { f with
    scanning := { f.scanning with active := false }
    planning := { f.planning with active := false }
    diffing := { f.diffing with active := false }
    awaiting_approval := { f.awaiting_approval with active := false }
    verifying := { f.verifying with active := false } }

/-- The five runtime flags in the array order used by
`RuntimeFlags::current_active_run_id` and `derive_journey`. -/
def RuntimeFlags.flagList (f : RuntimeFlags) : List RuntimeFlagState :=
  [f.scanning, f.planning, f.diffing, f.awaiting_approval, f.verifying]

/-- The `RuntimeFlags::current_active_run_id`. -/
def RuntimeFlags.current_active_run_id (f : RuntimeFlags) : Nat :=
  (((f.flagList.filter (·.active)).map (·.run_id)).max?).getD 0

/-- The `ApprovalState` from state.rs.  The `active_policy` field is omitted:
none of the modelled reducer branches below read it (the policy-engine
path is verified separately on `ReviewPolicy.evaluate`). -/
structure ApprovalState where
  policy_tier : PolicyTier
  pending : Option PendingApproval
  last_decision : Option ApprovalDecisionRecord
  last_gate : Option PolicyGateState
  next_request_seq : Nat
  deriving DecidableEq, Repr

/-- The `ShellSelection` from state.rs (the fields touched by the modelled
reducer branches). -/
structure ShellSelection where
  selected_diff_file : Option String
  selected_plan_step : Option String
  plan_stick_to_running : Bool
  deriving DecidableEq, Repr

/-- The `ShellRouting` from state.rs. -/
structure ShellRouting where
  journey : JourneyStep
  tab : ShellTab
  deriving DecidableEq, Repr

/-- The single `ShellCustomization` field read by the modelled branches. -/
structure ShellCustomization where
  auto_follow_intent : Bool
  deriving DecidableEq, Repr

/-- The `ShellState` from state.rs, restricted to the components the
modelled reducer branches read or write. -/
structure ShellState where
  routing : ShellRouting
  journey_status : JourneyStatus
  customization : ShellCustomization
  artifacts : ShellArtifacts
  runtime_flags : RuntimeFlags
  approval : ApprovalState
  selection : ShellSelection
  deriving DecidableEq, Repr

/-- The `ShellState::current_run_id`. -/
def ShellState.current_run_id (s : ShellState) : Nat :=
  let artifact_run_id :=
    (([s.artifacts.system.map (·.run_id), s.artifacts.plan.map (·.run_id),
       s.artifacts.diff.map (·.run_id),
       s.artifacts.verify.map (·.run_id)].filterMap id).max?).getD 0
  ((((s.runtime_flags.current_active_run_id.max artifact_run_id).max
      ((s.approval.pending.map (fun pending => pending.request.run_id)).getD 0)).max
      ((s.approval.last_decision.map (fun decision => decision.run_id)).getD 0)).max
    s.journey_status.active_run_id)

/-! ### state.rs: `derive_journey` -/

/-- The `JourneyProjection` from state.rs. -/
structure JourneyProjection where
  state : JourneyState
  step : JourneyStep
  active_run_id : Nat
  deriving DecidableEq, Repr

/-- The `active_run_id` computation inlined at the top of
`derive_journey`: the maximum over the active runtime flags' run ids
chained with the artifacts' and the pending approval's run ids,
`unwrap_or(0)`. -/
def deriveActiveRunId (artifacts : ShellArtifacts) (flags : RuntimeFlags)
    (approval : ApprovalState) : Nat :=
  ((((flags.flagList.filter (·.active)).map (·.run_id)) ++
    ([artifacts.system.map (·.run_id), artifacts.plan.map (·.run_id),
      artifacts.diff.map (·.run_id), artifacts.verify.map (·.run_id),
      approval.pending.map (fun pending => pending.request.run_id)].filterMap
      id)).max?).getD 0

/-- The `derive_journey` from state.rs, translated branch by branch. -/
def derive_journey (artifacts : ShellArtifacts) (flags : RuntimeFlags)
    (approval : ApprovalState) (journey_error : Option JourneyError) :
    JourneyProjection :=
  let active_run_id := deriveActiveRunId artifacts flags approval
  if journey_error.any (fun err => err.run_id == active_run_id) then
    ⟨.Failed, .Learn, active_run_id⟩
  else if approval.pending.any (fun pending => pending.request.run_id == active_run_id)
      || (flags.awaiting_approval.active
          && flags.awaiting_approval.run_id == active_run_id) then
    ⟨.AwaitingApproval, .Approve, active_run_id⟩
  else if flags.verifying.active && flags.verifying.run_id == active_run_id then
    ⟨.Verifying, .Verify, active_run_id⟩
  else if flags.diffing.active && flags.diffing.run_id == active_run_id then
    ⟨.Diffing, .Preview, active_run_id⟩
  else if flags.planning.active && flags.planning.run_id == active_run_id then
    ⟨.Planning, .Plan, active_run_id⟩
  else if flags.scanning.active && flags.scanning.run_id == active_run_id then
    ⟨.Scanning, .Understand, active_run_id⟩
  else if artifacts.verify.any (fun verify =>
      verify.run_id == active_run_id && verify.overall == .Passing) then
    ⟨.Completed, .Learn, active_run_id⟩
  else if artifacts.diff.any (fun diff => diff.run_id == active_run_id) then
    ⟨.ReviewReady, .Preview, active_run_id⟩
  else
    ⟨.Idle, .Idea, active_run_id⟩

/-! ### state.rs: artifact staleness guard and tier/risk table -/

/-- The `artifact_is_newer` from state.rs. -/
def artifact_is_newer (new_run_id new_artifact_id : Nat)
    (current : Option (Nat × Nat)) : Bool :=
  match current with
  | none => true
  | some (run_id, artifact_id) =>
    new_run_id > run_id || (new_run_id == run_id && new_artifact_id >= artifact_id)

/-- The `policy_requirement_for_risk` from state.rs. -/
def policy_requirement_for_risk (tier : PolicyTier) (risk : ApprovalRiskClass) :
    ApprovalGateRequirement :=
  match tier with
  | .Strict =>
    match risk with
    | .ReadOnly => .Allow
    | .PatchOnly | .Refactor | .Execution => .RequireApproval
    | .Destructive => .Deny
  | .Balanced =>
    match risk with
    | .ReadOnly | .PatchOnly | .Refactor => .Allow
    | .Execution | .Destructive => .RequireApproval
  | .Permissive =>
    match risk with
    | .Destructive => .RequireApproval
    | .ReadOnly | .PatchOnly | .Refactor | .Execution => .Allow

/-- The loop body of `DiffArtifact::analyze_risk` for a single diff
line, over the accumulator `(added, removed, has_destructive_file_ops)`. -/
def analyzeLine (acc : Nat × Nat × Bool) (line : DiffLine) : Nat × Nat × Bool :=
  match line.kind with
  | .Add => (acc.1 + 1, acc.2.1, acc.2.2)
  | .Remove => (acc.1, acc.2.1 + 1, acc.2.2)
  | .Context => acc

/-- The loop body of `DiffArtifact::analyze_risk` for one hunk. -/
def analyzeHunk (acc : Nat × Nat × Bool) (hunk : DiffHunk) : Nat × Nat × Bool :=
  hunk.lines.foldl analyzeLine acc

/-- The loop body of `DiffArtifact::analyze_risk` for one file: record a
destructive file operation for a `Deleted` file, then walk its hunks. -/
def analyzeFile (acc : Nat × Nat × Bool) (file : DiffFile) : Nat × Nat × Bool :=
  let acc :=
    if file.status = DiffFileStatus.Deleted then (acc.1, acc.2.1, true) else acc
  file.hunks.foldl analyzeHunk acc

/-- The `DiffArtifact::analyze_risk` from state.rs: count added and removed
lines over all hunks and detect deleted files, then classify. -/
def DiffArtifact.analyze_risk (d : DiffArtifact) : ApprovalRiskClass :=
  let counts := d.files.foldl analyzeFile ((0, 0, false) : Nat × Nat × Bool)
  let added := counts.1
  let removed := counts.2.1
  let has_destructive_file_ops := counts.2.2
  if has_destructive_file_ops then .Destructive
  else if removed > added then .Refactor
  else .PatchOnly

/-! ### reducer.rs: the runtime actions modelled here

These are exactly the `RuntimeAction` variants whose reducer branches
read or write the artifact slots or the approval state (in particular,
every branch of `reduce_runtime` that writes `approval.pending`). -/

/-- The modelled subset of `RuntimeAction` from actions.rs. -/
inductive RuntimeAction
  | SetJourneyState (next : JourneyState)
  | SetSystemArtifact (artifact : SystemArtifact)
  | SetPlanArtifact (artifact : PlanArtifact)
  | SetDiffArtifact (artifact : DiffArtifact)
  | SetVerifyArtifact (artifact : VerifyArtifact)
  | RequestApproval (request : ApprovalRequestRecord)
  | ResolveApproval (decision : ApprovalDecisionRecord)
  | ClearApprovalState (reason : ClearReason)
  deriving DecidableEq, Repr

/-- The `tab_for_journey` from reducer.rs. -/
def tab_for_journey : JourneyState → ShellTab
  | .Idle => .Chat
  | .Scanning => .System
  | .Planning => .Plan
  | .Diffing | .ReviewReady => .Diff
  | .AwaitingApproval | .Verifying | .Failed => .Logs
  | .Completed => .Explain

/-- The `maybe_follow_tab` from reducer.rs. -/
def maybe_follow_tab (state : ShellState) (tab : ShellTab) : ShellState :=
  if state.customization.auto_follow_intent then
    { state with routing := { state.routing with tab := tab } }
  else state

/-- The `recompute_journey` from reducer.rs. -/
def recompute_journey (state : ShellState) : ShellState :=
  let projection :=
    derive_journey state.artifacts state.runtime_flags state.approval
      state.journey_status.error
  let state :=
    { state with
      journey_status :=
        { state.journey_status with
          state := projection.state
          step := projection.step
          active_run_id := projection.active_run_id }
      routing := { state.routing with journey := projection.step } }
  if state.customization.auto_follow_intent then
    { state with
      routing := { state.routing with tab := tab_for_journey projection.state } }
  else state

/-- The `reconcile_selected_diff_file` from reducer.rs. -/
def reconcile_selected_diff_file (state : ShellState) : ShellState :=
  match state.artifacts.diff with
  | none =>
    { state with selection := { state.selection with selected_diff_file := none } }
  | some diff =>
    if state.selection.selected_diff_file.any
        (fun current => diff.files.any (fun file => file.path == current)) then
      state
    else
      match diff.files.find? (fun file => file.status == DiffFileStatus.Modified) with
      | some file =>
        { state with
          selection := { state.selection with selected_diff_file := some file.path } }
      | none =>
        { state with
          selection :=
            { state.selection with
              selected_diff_file := diff.files.head?.map (fun file => file.path) } }

/-- The `reconcile_selected_plan_step` from reducer.rs. -/
def reconcile_selected_plan_step (state : ShellState) : ShellState :=
  match state.artifacts.plan with
  | none =>
    { state with selection := { state.selection with selected_plan_step := none } }
  | some plan =>
    if state.selection.plan_stick_to_running
        && (plan.steps.any (fun step => step.status == StepStatus.Running)) then
      { state with
        selection :=
          { state.selection with
            selected_plan_step :=
              (plan.steps.find? (fun step => step.status == StepStatus.Running)).map
                (fun step => step.id) } }
    else if state.selection.selected_plan_step.any
        (fun current => plan.steps.any (fun step => step.id == current)) then
      state
    else
      match plan.steps.find? (fun step => step.status == StepStatus.Running) with
      | some step =>
        { state with
          selection := { state.selection with selected_plan_step := some step.id } }
      | none =>
        match plan.steps.find? (fun step => step.status == StepStatus.Pending) with
        | some step =>
          { state with
            selection := { state.selection with selected_plan_step := some step.id } }
        | none =>
          { state with
            selection :=
              { state.selection with
                selected_plan_step := plan.steps.head?.map (fun step => step.id) } }

/-- The `latest_approval_run_id` computation inlined in the
`RequestApproval` branch of `reduce_runtime`: the maximum of the pending
request's and the last decision's run ids, `0` when neither exists. -/
def latestApprovalRunId (s : ShellState) : Nat :=
  (((s.approval.pending.map (fun pending => pending.request.run_id)).toList ++
    (s.approval.last_decision.map (fun decision => decision.run_id)).toList).max?).getD 0

/-- The body of `reduce_runtime` from reducer.rs for the modelled
actions: returns the updated state together with the `dirty` flag. -/
def applyRuntime (state : ShellState) : RuntimeAction → ShellState × Bool
  | .SetJourneyState next =>
    let state :=
      match next with
      | .Idle =>
        { state with
          runtime_flags := state.runtime_flags.clear_all
          journey_status := { state.journey_status with error := none }
          approval := { state.approval with pending := none } }
      | .Scanning =>
        let run_id := state.runtime_flags.next_run_id
        let flags :=
          { state.runtime_flags with next_run_id := wrap64 (run_id + 1) }.clear_all
        { state with
          runtime_flags :=
            { flags with scanning := { active := true, run_id := run_id } } }
      | .Planning =>
        let run_id := state.runtime_flags.next_run_id
        let flags :=
          { state.runtime_flags with next_run_id := wrap64 (run_id + 1) }.clear_all
        { state with
          runtime_flags :=
            { flags with planning := { active := true, run_id := run_id } } }
      | .Diffing =>
        let run_id := state.current_run_id.max 1
        let flags := state.runtime_flags.clear_all
        { state with
          runtime_flags :=
            { flags with diffing := { active := true, run_id := run_id } } }
      | .ReviewReady =>
        { state with runtime_flags := state.runtime_flags.clear_all }
      | .AwaitingApproval =>
        let run_id := state.current_run_id.max 1
        let flags := state.runtime_flags.clear_all
        { state with
          runtime_flags :=
            { flags with awaiting_approval := { active := true, run_id := run_id } } }
      | .Verifying =>
        let run_id := state.current_run_id.max 1
        let flags := state.runtime_flags.clear_all
        { state with
          runtime_flags :=
            { flags with verifying := { active := true, run_id := run_id } } }
      | .Completed =>
        { state with runtime_flags := state.runtime_flags.clear_all }
      | .Failed =>
        { state with runtime_flags := state.runtime_flags.clear_all }
    (state, true)
  | .SetSystemArtifact artifact =>
    let current := state.artifacts.system.map (fun a => (a.run_id, a.artifact_id))
    if artifact_is_newer artifact.run_id artifact.artifact_id current then
      let state :=
        { state with
          artifacts := { state.artifacts with system := some artifact } }
      let state :=
        if state.routing.tab == ShellTab.Overview
            && state.customization.auto_follow_intent then
          { state with routing := { state.routing with tab := ShellTab.System } }
        else state
      (state, true)
    else (state, false)
  | .SetPlanArtifact artifact =>
    let current := state.artifacts.plan.map (fun a => (a.run_id, a.artifact_id))
    if artifact_is_newer artifact.run_id artifact.artifact_id current then
      let state :=
        { state with
          artifacts := { state.artifacts with plan := some artifact } }
      let state := reconcile_selected_plan_step state
      let state :=
        if (state.routing.tab == ShellTab.Overview
            || state.routing.tab == ShellTab.System)
            && state.customization.auto_follow_intent then
          { state with routing := { state.routing with tab := ShellTab.Plan } }
        else state
      (state, true)
    else (state, false)
  | .SetDiffArtifact artifact =>
    let current := state.artifacts.diff.map (fun a => (a.run_id, a.artifact_id))
    if artifact_is_newer artifact.run_id artifact.artifact_id current then
      let state :=
        { state with
          artifacts := { state.artifacts with diff := some artifact } }
      let state := reconcile_selected_diff_file state
      let state := maybe_follow_tab state ShellTab.Diff
      (state, true)
    else (state, false)
  | .SetVerifyArtifact artifact =>
    let current := state.artifacts.verify.map (fun a => (a.run_id, a.artifact_id))
    if artifact_is_newer artifact.run_id artifact.artifact_id current then
      ({ state with
         artifacts := { state.artifacts with verify := some artifact } }, true)
    else (state, false)
  | .RequestApproval request =>
    let run_id := request.run_id.max 1
    let latest_approval_run_id := latestApprovalRunId state
    if latest_approval_run_id ≤ run_id then
      let request := { request with run_id := run_id }
      let requirement :=
        policy_requirement_for_risk state.approval.policy_tier request.risk
      let sequence := state.approval.next_request_seq
      let state :=
        { state with
          approval :=
            { state.approval with
              last_gate := some
                { run_id := run_id, action := request.action, risk := request.risk,
                  requirement := requirement, reason := request.reason }
              next_request_seq := sat64 (state.approval.next_request_seq + 1)
              pending := some { request := request, sequence := sequence } }
          runtime_flags :=
            { state.runtime_flags with
              awaiting_approval := { active := true, run_id := run_id } } }
      let state :=
        { state with
          artifacts :=
            { state.artifacts with
              logs := state.artifacts.logs.append
                { seq := 0, level := .Warn, ts_ms := none, source := .Shell,
                  context := some "approval",
                  message := "approval request queued for run " ++ toString run_id,
                  run_id := run_id } } }
      (state, true)
    else (state, false)
  | .ResolveApproval decision =>
    match state.approval.pending with
    | some pending =>
      if pending.request.request_id == decision.request_id
          && pending.request.run_id == decision.run_id then
        let state :=
          { state with
            approval :=
              { state.approval with
                pending := none
                last_decision := some decision
                last_gate := some
                  { run_id := decision.run_id, action := decision.action,
                    risk :=
                      ((state.approval.last_gate.filter (fun gate : PolicyGateState =>
                          gate.run_id == decision.run_id
                            && gate.action == decision.action)).map
                        (fun gate : PolicyGateState => gate.risk)).getD
                        ApprovalRiskClass.Execution,
                    requirement := .Allow,
                    reason := "request " ++ decision.request_id ++ " "
                      ++ decision.decision.label } }
            runtime_flags :=
              if state.runtime_flags.awaiting_approval.run_id == decision.run_id then
                { state.runtime_flags with
                  awaiting_approval :=
                    { state.runtime_flags.awaiting_approval with active := false } }
              else state.runtime_flags }
        let state :=
          { state with
            artifacts :=
              { state.artifacts with
                logs := state.artifacts.logs.append
                  { seq := 0, level := .Info, ts_ms := some decision.timestamp_ms,
                    source := .Shell, context := some "approval",
                    message := "approval " ++ decision.decision.label
                      ++ " for request " ++ decision.request_id,
                    run_id := decision.run_id } } }
        (state, true)
      else (state, false)
    | none => (state, false)
  | .ClearApprovalState _ =>
    ({ state with
       approval :=
         { state.approval with
           pending := none, last_decision := none, last_gate := none }
       runtime_flags :=
         { state.runtime_flags with
           awaiting_approval :=
             { state.runtime_flags.awaiting_approval with active := false } } },
      true)

/-- The `reduce_runtime` from reducer.rs: apply the action's branch, then
recompute the journey projection when the branch marked the state
dirty. -/
def reduce_runtime (state : ShellState) (action : RuntimeAction) : ShellState :=
  let res := applyRuntime state action
  if res.2 then recompute_journey res.1 else res.1

/-! ## C4: the static tier-vs-risk table -/

/-- C4: `policy_requirement_for_risk` realises exactly the static
tier-vs-risk table of the spec: Strict allows only ReadOnly, requires
approval for PatchOnly/Refactor/Execution and denies Destructive;
Balanced allows ReadOnly/PatchOnly/Refactor and requires approval for
Execution/Destructive; Permissive requires approval only for
Destructive and allows everything else. -/
theorem policy_requirement_matches_table :
    (∀ risk, policy_requirement_for_risk .Strict risk =
      match risk with
      | .ReadOnly => .Allow
      | .PatchOnly => .RequireApproval
      | .Refactor => .RequireApproval
      | .Execution => .RequireApproval
      | .Destructive => .Deny) ∧
    (∀ risk, policy_requirement_for_risk .Balanced risk =
      match risk with
      | .ReadOnly => .Allow
      | .PatchOnly => .Allow
      | .Refactor => .Allow
      | .Execution => .RequireApproval
      | .Destructive => .RequireApproval) ∧
    (∀ risk, policy_requirement_for_risk .Permissive risk =
      match risk with
      | .ReadOnly => .Allow
      | .PatchOnly => .Allow
      | .Refactor => .Allow
      | .Execution => .Allow
      | .Destructive => .RequireApproval) := by
  refine ⟨?_, ?_, ?_⟩ <;> intro risk <;> cases risk <;> rfl

/-! ## Helper lemmas about the reducer plumbing -/

theorem recompute_journey_artifacts (s : ShellState) :
    (recompute_journey s).artifacts = s.artifacts := by
  simp only [recompute_journey]
  split <;> rfl

theorem recompute_journey_approval (s : ShellState) :
    (recompute_journey s).approval = s.approval := by
  simp only [recompute_journey]
  split <;> rfl

theorem reconcile_diff_artifacts (s : ShellState) :
    (reconcile_selected_diff_file s).artifacts = s.artifacts := by
  simp only [reconcile_selected_diff_file]
  split <;> try rfl
  split <;> try rfl
  split <;> rfl

theorem reconcile_diff_approval (s : ShellState) :
    (reconcile_selected_diff_file s).approval = s.approval := by
  simp only [reconcile_selected_diff_file]
  split <;> try rfl
  split <;> try rfl
  split <;> rfl

theorem reconcile_plan_artifacts (s : ShellState) :
    (reconcile_selected_plan_step s).artifacts = s.artifacts := by
  simp only [reconcile_selected_plan_step]
  split <;> try rfl
  split <;> try rfl
  split <;> try rfl
  split <;> try rfl
  split <;> rfl

theorem reconcile_plan_approval (s : ShellState) :
    (reconcile_selected_plan_step s).approval = s.approval := by
  simp only [reconcile_selected_plan_step]
  split <;> try rfl
  split <;> try rfl
  split <;> try rfl
  split <;> try rfl
  split <;> rfl

theorem maybe_follow_tab_artifacts (s : ShellState) (tab : ShellTab) :
    (maybe_follow_tab s tab).artifacts = s.artifacts := by
  simp only [maybe_follow_tab]
  split <;> rfl

theorem maybe_follow_tab_approval (s : ShellState) (tab : ShellTab) :
    (maybe_follow_tab s tab).approval = s.approval := by
  simp only [maybe_follow_tab]
  split <;> rfl

/-- Behaviour of the `SetSystemArtifact` branch on the system slot. -/
theorem reduce_set_system (s : ShellState) (a : SystemArtifact) :
    (reduce_runtime s (.SetSystemArtifact a)).artifacts.system =
      if artifact_is_newer a.run_id a.artifact_id
          (s.artifacts.system.map fun c => (c.run_id, c.artifact_id)) then
        some a
      else s.artifacts.system := by
  by_cases hG : artifact_is_newer a.run_id a.artifact_id
      (s.artifacts.system.map fun c => (c.run_id, c.artifact_id)) = true
  · simp [reduce_runtime, applyRuntime, hG, recompute_journey_artifacts, apply_ite]
  · simp [reduce_runtime, applyRuntime, hG]

/-- Behaviour of the `SetPlanArtifact` branch on the plan slot. -/
theorem reduce_set_plan (s : ShellState) (a : PlanArtifact) :
    (reduce_runtime s (.SetPlanArtifact a)).artifacts.plan =
      if artifact_is_newer a.run_id a.artifact_id
          (s.artifacts.plan.map fun c => (c.run_id, c.artifact_id)) then
        some a
      else s.artifacts.plan := by
  by_cases hG : artifact_is_newer a.run_id a.artifact_id
      (s.artifacts.plan.map fun c => (c.run_id, c.artifact_id)) = true
  · simp [reduce_runtime, applyRuntime, hG, recompute_journey_artifacts,
      reconcile_plan_artifacts, apply_ite]
  · simp [reduce_runtime, applyRuntime, hG]

/-- Behaviour of the `SetDiffArtifact` branch on the diff slot. -/
theorem reduce_set_diff (s : ShellState) (a : DiffArtifact) :
    (reduce_runtime s (.SetDiffArtifact a)).artifacts.diff =
      if artifact_is_newer a.run_id a.artifact_id
          (s.artifacts.diff.map fun c => (c.run_id, c.artifact_id)) then
        some a
      else s.artifacts.diff := by
  by_cases hG : artifact_is_newer a.run_id a.artifact_id
      (s.artifacts.diff.map fun c => (c.run_id, c.artifact_id)) = true
  · simp [reduce_runtime, applyRuntime, hG, recompute_journey_artifacts,
      maybe_follow_tab_artifacts, reconcile_diff_artifacts, apply_ite]
  · simp [reduce_runtime, applyRuntime, hG]

/-- Behaviour of the `SetVerifyArtifact` branch on the verify slot. -/
theorem reduce_set_verify (s : ShellState) (a : VerifyArtifact) :
    (reduce_runtime s (.SetVerifyArtifact a)).artifacts.verify =
      if artifact_is_newer a.run_id a.artifact_id
          (s.artifacts.verify.map fun c => (c.run_id, c.artifact_id)) then
        some a
      else s.artifacts.verify := by
  by_cases hG : artifact_is_newer a.run_id a.artifact_id
      (s.artifacts.verify.map fun c => (c.run_id, c.artifact_id)) = true
  · simp [reduce_runtime, applyRuntime, hG, recompute_journey_artifacts, apply_ite]
  · simp [reduce_runtime, applyRuntime, hG]

/-- The lexicographically larger of two pairs (favouring the second on
ties, where both pairs are equal anyway). -/
def lexMaxPair (p q : Nat × Nat) : Nat × Nat :=
  if q.1 > p.1 ∨ (q.1 = p.1 ∧ q.2 ≥ p.2) then q else p

theorem if_newer_pair (p q : Nat × Nat) :
    (if artifact_is_newer q.1 q.2 (some p) then q else p) = lexMaxPair p q := by
  simp only [artifact_is_newer, lexMaxPair]
  by_cases h : q.1 > p.1 ∨ (q.1 = p.1 ∧ q.2 ≥ p.2)
  · rw [if_pos h, if_pos]
    simpa using h
  · rw [if_neg h, if_neg]
    simpa using h

/-! ## C2: artifact staleness guard -/

/-- C2: each artifact-setting action stores the new artifact iff its
`(run_id, artifact_id)` pair is lexicographically `≥` the current
holder's pair (`artifact_is_newer`), and always when the slot is empty,
leaving the slot unchanged otherwise; consequently, applying two such
actions to an empty slot in either order leaves the artifact that
carries the lexicographically-maximal pair. -/
theorem artifact_staleness_guard :
    (∀ s a, (reduce_runtime s (.SetSystemArtifact a)).artifacts.system =
      if artifact_is_newer a.run_id a.artifact_id
          (s.artifacts.system.map fun c => (c.run_id, c.artifact_id)) then
        some a
      else s.artifacts.system) ∧
    (∀ s a, (reduce_runtime s (.SetPlanArtifact a)).artifacts.plan =
      if artifact_is_newer a.run_id a.artifact_id
          (s.artifacts.plan.map fun c => (c.run_id, c.artifact_id)) then
        some a
      else s.artifacts.plan) ∧
    (∀ s a, (reduce_runtime s (.SetDiffArtifact a)).artifacts.diff =
      if artifact_is_newer a.run_id a.artifact_id
          (s.artifacts.diff.map fun c => (c.run_id, c.artifact_id)) then
        some a
      else s.artifacts.diff) ∧
    (∀ s a, (reduce_runtime s (.SetVerifyArtifact a)).artifacts.verify =
      if artifact_is_newer a.run_id a.artifact_id
          (s.artifacts.verify.map fun c => (c.run_id, c.artifact_id)) then
        some a
      else s.artifacts.verify) ∧
    (∀ s (a₁ a₂ : SystemArtifact), s.artifacts.system = none →
      ((reduce_runtime (reduce_runtime s (.SetSystemArtifact a₁))
          (.SetSystemArtifact a₂)).artifacts.system.map
        fun a => (a.run_id, a.artifact_id)) =
      some (lexMaxPair (a₁.run_id, a₁.artifact_id) (a₂.run_id, a₂.artifact_id))) ∧
    (∀ s (a₁ a₂ : PlanArtifact), s.artifacts.plan = none →
      ((reduce_runtime (reduce_runtime s (.SetPlanArtifact a₁))
          (.SetPlanArtifact a₂)).artifacts.plan.map
        fun a => (a.run_id, a.artifact_id)) =
      some (lexMaxPair (a₁.run_id, a₁.artifact_id) (a₂.run_id, a₂.artifact_id))) ∧
    (∀ s (a₁ a₂ : DiffArtifact), s.artifacts.diff = none →
      ((reduce_runtime (reduce_runtime s (.SetDiffArtifact a₁))
          (.SetDiffArtifact a₂)).artifacts.diff.map
        fun a => (a.run_id, a.artifact_id)) =
      some (lexMaxPair (a₁.run_id, a₁.artifact_id) (a₂.run_id, a₂.artifact_id))) ∧
    (∀ s (a₁ a₂ : VerifyArtifact), s.artifacts.verify = none →
      ((reduce_runtime (reduce_runtime s (.SetVerifyArtifact a₁))
          (.SetVerifyArtifact a₂)).artifacts.verify.map
        fun a => (a.run_id, a.artifact_id)) =
      some (lexMaxPair (a₁.run_id, a₁.artifact_id) (a₂.run_id, a₂.artifact_id))) := by
  refine ⟨reduce_set_system, reduce_set_plan, reduce_set_diff, reduce_set_verify,
    ?_, ?_, ?_, ?_⟩
  · intro s a₁ a₂ h
    have h₁ : (reduce_runtime s (.SetSystemArtifact a₁)).artifacts.system = some a₁ := by
      rw [reduce_set_system, h]
      rfl
    rw [reduce_set_system, h₁]
    rw [show ((some a₁).map fun c : SystemArtifact => (c.run_id, c.artifact_id)) =
      some (a₁.run_id, a₁.artifact_id) from rfl]
    rw [← if_newer_pair (a₁.run_id, a₁.artifact_id) (a₂.run_id, a₂.artifact_id)]
    split <;> rfl
  · intro s a₁ a₂ h
    have h₁ : (reduce_runtime s (.SetPlanArtifact a₁)).artifacts.plan = some a₁ := by
      rw [reduce_set_plan, h]
      rfl
    rw [reduce_set_plan, h₁]
    rw [show ((some a₁).map fun c : PlanArtifact => (c.run_id, c.artifact_id)) =
      some (a₁.run_id, a₁.artifact_id) from rfl]
    rw [← if_newer_pair (a₁.run_id, a₁.artifact_id) (a₂.run_id, a₂.artifact_id)]
    split <;> rfl
  · intro s a₁ a₂ h
    have h₁ : (reduce_runtime s (.SetDiffArtifact a₁)).artifacts.diff = some a₁ := by
      rw [reduce_set_diff, h]
      rfl
    rw [reduce_set_diff, h₁]
    rw [show ((some a₁).map fun c : DiffArtifact => (c.run_id, c.artifact_id)) =
      some (a₁.run_id, a₁.artifact_id) from rfl]
    rw [← if_newer_pair (a₁.run_id, a₁.artifact_id) (a₂.run_id, a₂.artifact_id)]
    split <;> rfl
  · intro s a₁ a₂ h
    have h₁ : (reduce_runtime s (.SetVerifyArtifact a₁)).artifacts.verify = some a₁ := by
      rw [reduce_set_verify, h]
      rfl
    rw [reduce_set_verify, h₁]
    rw [show ((some a₁).map fun c : VerifyArtifact => (c.run_id, c.artifact_id)) =
      some (a₁.run_id, a₁.artifact_id) from rfl]
    rw [← if_newer_pair (a₁.run_id, a₁.artifact_id) (a₂.run_id, a₂.artifact_id)]
    split <;> rfl

/-- A `ShellState` with the same component defaults as `ShellState::new`
(balanced tier, empty artifacts, log capacity 2000). -/
def baseState : ShellState :=
  { routing := { journey := .Idea, tab := .Chat }
    journey_status := { state := .Idle, step := .Idea, error := none, active_run_id := 0 }
    customization := { auto_follow_intent := false }
    artifacts := { schema_version := 1, system := none, plan := none, diff := none,
                   verify := none, logs := LogBuffer.new 2000 }
    runtime_flags := { scanning := ⟨false, 0⟩, planning := ⟨false, 0⟩,
                       diffing := ⟨false, 0⟩, awaiting_approval := ⟨false, 0⟩,
                       verifying := ⟨false, 0⟩, next_run_id := 1 }
    approval := { policy_tier := .Balanced, pending := none, last_decision := none,
                  last_gate := none, next_request_seq := 1 }
    selection := { selected_diff_file := none, selected_plan_step := none,
                   plan_stick_to_running := true } }

/-- A first system artifact with pair `(1, 1)`. -/
def sysA : SystemArtifact :=
  { schema_version := 1, run_id := 1, artifact_id := 1, repo_root := "",
    detected_stack := [], entrypoints := [], risk_flags := [], summary := "a",
    error := none }

/-- A second system artifact with pair `(2, 1)`. -/
def sysB : SystemArtifact :=
  { schema_version := 1, run_id := 2, artifact_id := 1, repo_root := "",
    detected_stack := [], entrypoints := [], risk_flags := [], summary := "b",
    error := none }

/-- Witness for C2 at a concrete empty slot and two concrete artifacts. -/
theorem artifact_staleness_guard_witness :
    baseState.artifacts.system = none ∧
    ((reduce_runtime (reduce_runtime baseState (.SetSystemArtifact sysA))
        (.SetSystemArtifact sysB)).artifacts.system.map
      fun a => (a.run_id, a.artifact_id)) =
    some (lexMaxPair (sysA.run_id, sysA.artifact_id) (sysB.run_id, sysB.artifact_id)) :=
  ⟨rfl, artifact_staleness_guard.2.2.2.2.1 baseState sysA sysB rfl⟩

/-! ## C3: approval monotonicity

The `RequestApproval` branch first clamps the incoming run id to
`max(run_id, 1)` and only then compares it against the latest approval
run id, so the claim's guard on the raw `run_id` is off by the clamp:
a request with `run_id = 0` against a latest run id of `1` is accepted
even though `0 < 1`.  The amended statement uses the clamped run id. -/

/-- A pending request with run id 1, used by the C3 counterexample. -/
def c3PendingRequest : ApprovalRequestRecord :=
  { request_id := "req-a", run_id := 1, action := .Execute, risk := .Execution,
    reason := "r", preview := "p", created_at_ms := none }

/-- A last decision with run id 1, used by the C3 counterexample. -/
def c3LastDecision : ApprovalDecisionRecord :=
  { request_id := "req-a", run_id := 1, action := .Execute, decision := .Approved,
    timestamp_ms := 0 }

/-- A state whose pending request and last decision both carry run id 1. -/
def c3State : ShellState :=
  { baseState with
    approval :=
      { baseState.approval with
        pending := some { request := c3PendingRequest, sequence := 1 }
        last_decision := some c3LastDecision } }

/-- A new approval request submitted with run id 0. -/
def c3Request : ApprovalRequestRecord :=
  { request_id := "req-b", run_id := 0, action := .Execute, risk := .Execution,
    reason := "r2", preview := "p2", created_at_ms := none }

/-- Counterexample to C3 as stated: the request's raw `run_id` (0) is
strictly below `max(pending.run_id, last_decision.run_id)` (1), yet the
reducer accepts it (because the clamp `max(run_id, 1)` reaches the
latest run id), so the action is not a no-op. -/
theorem approval_monotonicity_counterexample :
    c3Request.run_id < latestApprovalRunId c3State ∧
    reduce_runtime c3State (.RequestApproval c3Request) ≠ c3State := by
  constructor
  · decide
  · decide

/-- C3 (amended): `RequestApproval` whose clamped run id
`max(request.run_id, 1)` is strictly below the maximum of the pending
request's and last decision's run ids is a no-op, and `ResolveApproval`
is a no-op unless its `(request_id, run_id)` matches the pending
request's pair exactly. -/
theorem approval_monotonicity :
    (∀ s request, request.run_id.max 1 < latestApprovalRunId s →
      reduce_runtime s (.RequestApproval request) = s) ∧
    (∀ s decision,
      (∀ pending, s.approval.pending = some pending →
        pending.request.request_id ≠ decision.request_id ∨
          pending.request.run_id ≠ decision.run_id) →
      reduce_runtime s (.ResolveApproval decision) = s) := by
  constructor
  · intro s request h
    have hx : ¬ latestApprovalRunId s ≤ request.run_id.max 1 := Nat.not_le.mpr h
    simp [reduce_runtime, applyRuntime, hx]
  · intro s decision h
    cases hp : s.approval.pending with
    | none => simp [reduce_runtime, applyRuntime, hp]
    | some pending =>
      have hb : (pending.request.request_id == decision.request_id
          && pending.request.run_id == decision.run_id) = false := by
        rcases h pending hp with h1 | h1 <;> simp [h1]
      simp [reduce_runtime, applyRuntime, hp, hb]

/-- A state whose last decision carries run id 2 (pending empty). -/
def c3WitnessState : ShellState :=
  { baseState with
    approval :=
      { baseState.approval with
        last_decision := some { c3LastDecision with run_id := 2 } } }

/-- Witness for the amended C3 at a concrete state: a request with
run id 0 against a latest approval run id of 2 leaves the state
unchanged. -/
theorem approval_monotonicity_witness :
    c3Request.run_id.max 1 < latestApprovalRunId c3WitnessState ∧
    reduce_runtime c3WitnessState (.RequestApproval c3Request) = c3WitnessState :=
  ⟨by decide, approval_monotonicity.1 c3WitnessState c3Request (by decide)⟩

/-! ## C10: pending approvals always carry a positive run id -/

/-- Every pending approval in the state carries `run_id ≥ 1`. -/
def PendingRunIdPositive (s : ShellState) : Prop :=
  ∀ pending, s.approval.pending = some pending → 1 ≤ pending.request.run_id

theorem recompute_journey_pending (s : ShellState) :
    (recompute_journey s).approval.pending = s.approval.pending := by
  rw [recompute_journey_approval]

theorem reduce_runtime_pending (s : ShellState) (action : RuntimeAction) :
    (reduce_runtime s action).approval.pending =
      (applyRuntime s action).1.approval.pending := by
  simp only [reduce_runtime]
  split
  · rw [recompute_journey_pending]
  · rfl

/-- Every modelled reducer action either keeps the pending slot, clears
it, or stores a pending approval whose run id is at least 1. -/
theorem reduce_pending_cases (s : ShellState) (action : RuntimeAction) :
    (reduce_runtime s action).approval.pending = s.approval.pending ∨
    (reduce_runtime s action).approval.pending = none ∨
    ∃ p, (reduce_runtime s action).approval.pending = some p ∧
      1 ≤ p.request.run_id := by
  rw [reduce_runtime_pending]
  cases action with
  | SetJourneyState next =>
    cases next
    case Idle => exact Or.inr (Or.inl rfl)
    all_goals exact Or.inl rfl
  | SetSystemArtifact a =>
    left
    simp only [applyRuntime]
    split
    · split <;> rfl
    · rfl
  | SetPlanArtifact a =>
    left
    simp only [applyRuntime]
    split
    · split <;> simp [reconcile_plan_approval]
    · rfl
  | SetDiffArtifact a =>
    left
    simp only [applyRuntime]
    split
    · simp [maybe_follow_tab_approval, reconcile_diff_approval]
    · rfl
  | SetVerifyArtifact a =>
    left
    simp only [applyRuntime]
    split <;> rfl
  | RequestApproval request =>
    by_cases hx : latestApprovalRunId s ≤ request.run_id.max 1
    · right
      right
      refine ⟨⟨{ request with run_id := request.run_id.max 1 },
        s.approval.next_request_seq⟩, ?_, Nat.le_max_right _ 1⟩
      simp [applyRuntime, hx]
    · left
      simp [applyRuntime, hx]
  | ResolveApproval decision =>
    cases hp : s.approval.pending with
    | none =>
      left
      simp [applyRuntime, hp]
    | some pending =>
      by_cases hb : (pending.request.request_id == decision.request_id
          && pending.request.run_id == decision.run_id) = true
      · right
        left
        simp [applyRuntime, hp, hb]
      · left
        simp [applyRuntime, hp, hb]
  | ClearApprovalState reason =>
    exact Or.inr (Or.inl rfl)

/-- C10: `RequestApproval` replaces the incoming run id with
`max(run_id, 1)` before both the comparison and storage, so a request
with `run_id = 0` is accepted whenever `1` reaches the latest approval
run id and is recorded with run id `1`; and no modelled reducer action
(the branches of `reduce_runtime` that write `approval.pending`) ever
stores a pending approval with run id `0`. -/
theorem pending_run_id_positive :
    (∀ s action, PendingRunIdPositive s →
      PendingRunIdPositive (reduce_runtime s action)) ∧
    (∀ s request, request.run_id = 0 → latestApprovalRunId s ≤ 1 →
      (reduce_runtime s (.RequestApproval request)).approval.pending =
        some { request := { request with run_id := 1 },
               sequence := s.approval.next_request_seq }) := by
  constructor
  · intro s action h pending hp
    rcases reduce_pending_cases s action with hc | hc | ⟨p, hc, hpos⟩
    · exact h pending (hc ▸ hp)
    · rw [hc] at hp
      exact absurd hp (by simp)
    · rw [hc] at hp
      cases hp
      exact hpos
  · intro s request h0 hle
    have hm : request.run_id.max 1 = 1 := by rw [h0]; rfl
    rw [reduce_runtime_pending]
    simp [applyRuntime, hm, hle]

/-- Witness for C10 at concrete inputs: from `baseState` (no prior
approvals) a request with run id 0 is stored with run id 1, and the
invariant instance at `baseState` holds. -/
theorem pending_run_id_positive_witness :
    PendingRunIdPositive baseState ∧
    (c3Request.run_id = 0 ∧ latestApprovalRunId baseState ≤ 1) ∧
    (reduce_runtime baseState (.RequestApproval c3Request)).approval.pending =
      some { request := { c3Request with run_id := 1 },
             sequence := baseState.approval.next_request_seq } := by
  refine ⟨?_, ⟨rfl, by decide⟩,
    pending_run_id_positive.2 baseState c3Request rfl (by decide)⟩
  intro pending hp
  simp [baseState] at hp

/-! ## C5: the `derive_journey` algorithm

The claim's rules (4)–(6) fire on any active diffing/planning/scanning
flag, while the source additionally requires the flag's `run_id` to
equal `active_run_id` (exactly as rules (2)–(3) do).  The two differ,
e.g., on a state with an active diffing flag for run 1 and a failing
verify artifact for run 2. -/

theorem maxD_eq_foldr (l : List Nat) : l.max?.getD 0 = l.foldr max 0 := by
  induction l with
  | nil => rfl
  | cons a l ih =>
    rw [List.max?_cons, Option.getD_some, List.foldr_cons]
    cases h : l.max? with
    | none =>
      rw [h] at ih
      rw [List.max?_eq_none_iff] at h
      subst h
      simp
    | some m =>
      rw [h] at ih
      rw [Option.getD_some] at ih
      simp [ih]

theorem filterMap_guard (l : List RuntimeFlagState) :
    (l.filterMap fun f => if f.active then some f.run_id else none) =
      (l.filter (·.active)).map (·.run_id) := by
  induction l with
  | nil => rfl
  | cons a l ih =>
    by_cases h : a.active <;>
      simp [List.filterMap_cons, List.filter_cons, h, ih]

/-- Modelled from the spec: `active_run_id` is the maximum over all
active runtime-flag run ids, every artifact's run id, and the pending
approval's run id, `0` when none exist. -/
def specActiveRunId (artifacts : ShellArtifacts) (flags : RuntimeFlags)
    (approval : ApprovalState) : Nat :=
  ((flags.flagList.filterMap fun f => if f.active then some f.run_id else none) ++
    ((artifacts.system.toList.map (·.run_id)) ++
      ((artifacts.plan.toList.map (·.run_id)) ++
        ((artifacts.diff.toList.map (·.run_id)) ++
          ((artifacts.verify.toList.map (·.run_id)) ++
            (approval.pending.toList.map (·.request.run_id))))))).foldr max 0

theorem deriveActiveRunId_eq_spec (artifacts : ShellArtifacts)
    (flags : RuntimeFlags) (approval : ApprovalState) :
    deriveActiveRunId artifacts flags approval =
      specActiveRunId artifacts flags approval := by
  unfold deriveActiveRunId specActiveRunId
  rw [maxD_eq_foldr, filterMap_guard]
  congr 1
  congr 1
  cases artifacts.system <;> cases artifacts.plan <;> cases artifacts.diff <;>
    cases artifacts.verify <;> cases approval.pending <;> rfl

/-- Modelled from the spec (as amended): the priority cascade of the
claim with the `run_id = active_run_id` qualifier present on rules
(4)–(6) as well. -/
def specDeriveJourney (artifacts : ShellArtifacts) (flags : RuntimeFlags)
    (approval : ApprovalState) (journey_error : Option JourneyError) :
    JourneyProjection :=
  let active := specActiveRunId artifacts flags approval
  if journey_error.map (fun err => err.run_id) = some active then
    ⟨.Failed, .Learn, active⟩
  else if approval.pending.map (fun p => p.request.run_id) = some active
      ∨ (flags.awaiting_approval.active ∧ flags.awaiting_approval.run_id = active) then
    ⟨.AwaitingApproval, .Approve, active⟩
  else if flags.verifying.active ∧ flags.verifying.run_id = active then
    ⟨.Verifying, .Verify, active⟩
  else if flags.diffing.active ∧ flags.diffing.run_id = active then
    ⟨.Diffing, .Preview, active⟩
  else if flags.planning.active ∧ flags.planning.run_id = active then
    ⟨.Planning, .Plan, active⟩
  else if flags.scanning.active ∧ flags.scanning.run_id = active then
    ⟨.Scanning, .Understand, active⟩
  else if artifacts.verify.map (fun v => (v.run_id, v.overall)) = some (active, .Passing) then
    ⟨.Completed, .Learn, active⟩
  else if artifacts.diff.map (fun d => d.run_id) = some active then
    ⟨.ReviewReady, .Preview, active⟩
  else
    ⟨.Idle, .Idea, active⟩

/-- Modelled from the spec: the cascade exactly as the claim states it,
with rules (4)–(6) firing on any active diffing/planning/scanning flag
regardless of its run id. -/
def claimDeriveJourney (artifacts : ShellArtifacts) (flags : RuntimeFlags)
    (approval : ApprovalState) (journey_error : Option JourneyError) :
    JourneyProjection :=
  let active := specActiveRunId artifacts flags approval
  if journey_error.map (fun err => err.run_id) = some active then
    ⟨.Failed, .Learn, active⟩
  else if approval.pending.map (fun p => p.request.run_id) = some active
      ∨ (flags.awaiting_approval.active ∧ flags.awaiting_approval.run_id = active) then
    ⟨.AwaitingApproval, .Approve, active⟩
  else if flags.verifying.active ∧ flags.verifying.run_id = active then
    ⟨.Verifying, .Verify, active⟩
  else if flags.diffing.active then
    ⟨.Diffing, .Preview, active⟩
  else if flags.planning.active then
    ⟨.Planning, .Plan, active⟩
  else if flags.scanning.active then
    ⟨.Scanning, .Understand, active⟩
  else if artifacts.verify.map (fun v => (v.run_id, v.overall)) = some (active, .Passing) then
    ⟨.Completed, .Learn, active⟩
  else if artifacts.diff.map (fun d => d.run_id) = some active then
    ⟨.ReviewReady, .Preview, active⟩
  else
    ⟨.Idle, .Idea, active⟩

/-- Runtime flags with an active diffing flag for run 1. -/
def c5Flags : RuntimeFlags :=
  { baseState.runtime_flags with diffing := ⟨true, 1⟩ }

/-- Artifacts holding a failing verify artifact for run 2. -/
def c5Artifacts : ShellArtifacts :=
  { baseState.artifacts with
    verify := some { schema_version := 1, run_id := 2, artifact_id := 1,
                     checks := [], overall := .Failing, error := none } }

/-- Counterexample to C5 as stated: with a diffing flag active for run 1
and a (failing) verify artifact for run 2, `active_run_id = 2`, the
source returns `Idle/Idea`, while the claim's rule (4) — which does not
require the diffing flag to be on `active_run_id` — returns
`Diffing/Preview`. -/
theorem derive_journey_claim_counterexample :
    claimDeriveJourney c5Artifacts c5Flags baseState.approval none ≠
      derive_journey c5Artifacts c5Flags baseState.approval none ∧
    (claimDeriveJourney c5Artifacts c5Flags baseState.approval none).state =
      JourneyState.Diffing ∧
    (derive_journey c5Artifacts c5Flags baseState.approval none).state =
      JourneyState.Idle :=
  ⟨by decide, by decide, by decide⟩

/-- C5 (amended): `derive_journey` is total by construction and equals
the claim's priority cascade with the `run_id = active_run_id`
qualifier also on rules (4)–(6): it computes `active_run_id` as the
maximum over active runtime-flag run ids, artifact run ids and the
pending approval's run id (0 when none exist), then returns the first
rule that fires in the claimed priority order. -/
theorem derive_journey_matches_spec (artifacts : ShellArtifacts)
    (flags : RuntimeFlags) (approval : ApprovalState)
    (journey_error : Option JourneyError) :
    derive_journey artifacts flags approval journey_error =
      specDeriveJourney artifacts flags approval journey_error := by
  simp only [derive_journey, specDeriveJourney]
  rw [deriveActiveRunId_eq_spec]
  refine if_congr ?_ rfl (if_congr ?_ rfl (if_congr ?_ rfl (if_congr ?_ rfl
    (if_congr ?_ rfl (if_congr ?_ rfl (if_congr ?_ rfl (if_congr ?_ rfl rfl)))))))
  · cases journey_error <;> simp
  · cases approval.pending <;> simp
  · simp
  · simp
  · simp
  · simp
  · cases artifacts.verify <;> simp
  · cases artifacts.diff <;> simp

/-! ## C7: diff risk synthesis -/

/-- The risk selection at the top of the step loop in
`execute_workflow` (main.rs): start from the tool's static risk class
and, past the diff step (`step_index > 2`), re-derive it from the
`DiffArtifact` when one is present. -/
def driverRisk (step_index : Nat) (static_risk : ApprovalRiskClass)
    (diff : Option DiffArtifact) : ApprovalRiskClass :=
  if 2 < step_index then
    match diff with
    | some d => d.analyze_risk
    | none => static_risk
  else static_risk

/-- Total number of `Add` lines across all hunks of all files. -/
def addedLineCount (files : List DiffFile) : Nat :=
  (files.map fun f =>
    (f.hunks.map fun h => (h.lines.filter fun l => l.kind == DiffLineKind.Add).length).sum).sum

/-- Total number of `Remove` lines across all hunks of all files. -/
def removedLineCount (files : List DiffFile) : Nat :=
  (files.map fun f =>
    (f.hunks.map fun h => (h.lines.filter fun l => l.kind == DiffLineKind.Remove).length).sum).sum

/-- Modelled from the spec: any `Deleted` file is `Destructive`,
otherwise strictly more removed than added lines is `Refactor`,
otherwise `PatchOnly`. -/
def specAnalyzeRisk (d : DiffArtifact) : ApprovalRiskClass :=
  if d.files.any (fun f => f.status == DiffFileStatus.Deleted) then .Destructive
  else if addedLineCount d.files < removedLineCount d.files then .Refactor
  else .PatchOnly

theorem foldl_analyzeLine (lines : List DiffLine) :
    ∀ acc : Nat × Nat × Bool,
      lines.foldl analyzeLine acc =
        (acc.1 + (lines.filter fun l => l.kind == DiffLineKind.Add).length,
         acc.2.1 + (lines.filter fun l => l.kind == DiffLineKind.Remove).length,
         acc.2.2) := by
  induction lines with
  | nil => intro acc; simp
  | cons l lines ih =>
    intro acc
    rw [List.foldl_cons, ih]
    cases hk : l.kind <;>
      simp [analyzeLine, hk, List.filter_cons, Prod.ext_iff] <;> omega

theorem foldl_analyzeHunk (hunks : List DiffHunk) :
    ∀ acc : Nat × Nat × Bool,
      hunks.foldl analyzeHunk acc =
        (acc.1 + (hunks.map fun h =>
            (h.lines.filter fun l => l.kind == DiffLineKind.Add).length).sum,
         acc.2.1 + (hunks.map fun h =>
            (h.lines.filter fun l => l.kind == DiffLineKind.Remove).length).sum,
         acc.2.2) := by
  induction hunks with
  | nil => intro acc; simp
  | cons h hunks ih =>
    intro acc
    rw [List.foldl_cons, analyzeHunk, foldl_analyzeLine, ih]
    simp [Prod.ext_iff]
    omega

theorem foldl_analyzeFile (files : List DiffFile) :
    ∀ acc : Nat × Nat × Bool,
      files.foldl analyzeFile acc =
        (acc.1 + addedLineCount files,
         acc.2.1 + removedLineCount files,
         acc.2.2 || files.any (fun f => f.status == DiffFileStatus.Deleted)) := by
  induction files with
  | nil => intro acc; simp [addedLineCount, removedLineCount]
  | cons f files ih =>
    intro acc
    rw [List.foldl_cons, analyzeFile, foldl_analyzeHunk, ih]
    by_cases hd : f.status = DiffFileStatus.Deleted
    · simp [hd, addedLineCount, removedLineCount, Prod.ext_iff, Nat.add_assoc]
    · have hb : (f.status == DiffFileStatus.Deleted) = false := by
        simp [hd]
      simp [hd, hb, addedLineCount, removedLineCount, Prod.ext_iff, Nat.add_assoc]

/-- C7: `analyze_risk` returns `Destructive` when any file is `Deleted`,
otherwise `Refactor` when the total `Remove`-line count strictly exceeds
the total `Add`-line count, otherwise `PatchOnly`; and past the diff
step the driver overrides the static risk with exactly this value
whenever a `DiffArtifact` is present. -/
theorem analyze_risk_matches_spec :
    (∀ d : DiffArtifact, d.analyze_risk = specAnalyzeRisk d) ∧
    (∀ (step_index : Nat) (static_risk : ApprovalRiskClass) (d : DiffArtifact),
      2 < step_index →
      driverRisk step_index static_risk (some d) = d.analyze_risk) := by
  constructor
  · intro d
    rw [DiffArtifact.analyze_risk, specAnalyzeRisk, foldl_analyzeFile]
    simp
  · intro step_index static_risk d h
    rw [driverRisk, if_pos h]

/-- A diff with one deleted file and no hunks. -/
def c7Diff : DiffArtifact :=
  { schema_version := 1, run_id := 1, artifact_id := 1,
    files := [{ path := "gone.rs", status := .Deleted, hunks := [] }],
    summary := "s", error := none }

/-- Witness for C7 at a concrete step index and diff: at step 3 the
driver's risk equals `analyze_risk`, which is `Destructive` here. -/
theorem analyze_risk_matches_spec_witness :
    driverRisk 3 ApprovalRiskClass.ReadOnly (some c7Diff) = c7Diff.analyze_risk ∧
    c7Diff.analyze_risk = ApprovalRiskClass.Destructive :=
  ⟨analyze_risk_matches_spec.2 3 ApprovalRiskClass.ReadOnly c7Diff (by decide), by decide⟩

/-! ## C8: log buffer FIFO

With `cap = 0` the source's eviction test (`len == cap`) fires only on
the empty buffer, so the buffer then grows without bound; the claim's
universal quantification over every capacity `N` therefore fails at
`N = 0`, and the amended statement requires `N ≥ 1` (plus `M` below the
`u64` wrap of `next_seq`). -/

/-- Fold a list of entries through `LogBuffer.append`. -/
def LogBuffer.appendAll (b : LogBuffer) (es : List LogEntry) : LogBuffer :=
  es.foldl LogBuffer.append b

/-- The entries as `append` stamps them: consecutive seqs from `n`. -/
def stampFrom (n : Nat) : List LogEntry → List LogEntry
  | [] => []
  | e :: es => { e with seq := n } :: stampFrom (n + 1) es

/-- The last `n` entries of a list. -/
def lastN (n : Nat) (l : List LogEntry) : List LogEntry := l.drop (l.length - n)

theorem stampFrom_length (es : List LogEntry) :
    ∀ n, (stampFrom n es).length = es.length := by
  induction es with
  | nil => intro n; rfl
  | cons e es ih => intro n; simp [stampFrom, ih]

theorem stampFrom_map_seq (es : List LogEntry) :
    ∀ n, (stampFrom n es).map (fun e => e.seq) = List.range' n es.length := by
  induction es with
  | nil => intro n; rfl
  | cons e es ih => intro n; simp [stampFrom, ih, List.range'_succ]

theorem lastN_all (n : Nat) (l : List LogEntry) (h : l.length ≤ n) :
    lastN n l = l := by
  unfold lastN
  rw [Nat.sub_eq_zero_of_le h, List.drop_zero]

theorem lastN_of_drop_one (cap : Nat) (x : List LogEntry) (h : cap + 1 ≤ x.length) :
    lastN cap x = lastN cap (x.drop 1) := by
  unfold lastN
  rw [List.drop_drop, List.length_drop]
  congr 1
  omega

theorem range'_drop : ∀ (m s n : Nat), (List.range' s n).drop m = List.range' (s + m) (n - m) := by
  intro m
  induction m with
  | zero => intro s n; simp
  | succ m ih =>
    intro s n
    cases n with
    | zero => simp
    | succ n =>
      rw [List.range'_succ, List.drop_succ_cons, ih]
      congr 1 <;> omega

theorem appendAll_closed (es : List LogEntry) :
    ∀ (cap n : Nat) (b : List LogEntry), 1 ≤ cap → b.length ≤ cap →
      n + es.length < 2 ^ 64 →
      LogBuffer.appendAll ⟨cap, n, b⟩ es =
        ⟨cap, n + es.length, lastN cap (b ++ stampFrom n es)⟩ := by
  induction es with
  | nil =>
    intro cap n b hcap hb hw
    simp [LogBuffer.appendAll, stampFrom, lastN_all cap b hb]
  | cons e es ih =>
    intro cap n b hcap hb hw
    have hlen : (e :: es).length = es.length + 1 := rfl
    have hwrap : wrap64 (n + 1) = n + 1 := by
      rw [hlen] at hw
      exact Nat.mod_eq_of_lt (by omega)
    have hstep : LogBuffer.appendAll ⟨cap, n, b⟩ (e :: es) =
        LogBuffer.appendAll
          ⟨cap, n + 1,
            (if b.length = cap then b.drop 1 else b) ++ [{ e with seq := n }]⟩ es := by
      simp only [LogBuffer.appendAll, List.foldl_cons, LogBuffer.append, hwrap]
    rw [hstep]
    by_cases hfull : b.length = cap
    · have hblen : ((b.drop 1) ++ [{ e with seq := n }]).length ≤ cap := by
        simp [List.length_drop]
        omega
      rw [if_pos hfull, ih cap (n + 1) _ hcap hblen (by rw [hlen] at hw; omega)]
      have hx : (b.drop 1 ++ [{ e with seq := n }]) ++ stampFrom (n + 1) es =
          (b ++ stampFrom n (e :: es)).drop 1 := by
        rw [show stampFrom n (e :: es) =
          { e with seq := n } :: stampFrom (n + 1) es from rfl]
        rw [List.append_assoc, List.singleton_append,
          List.drop_append_of_le_length (by omega)]
      rw [hx, ← lastN_of_drop_one]
      · congr 1
        omega
      · simp [stampFrom_length]
        omega
    · have hnotfull : b.length + 1 ≤ cap := by
        omega
      have hblen : (b ++ [{ e with seq := n }]).length ≤ cap := by
        simp
        omega
      rw [if_neg hfull, ih cap (n + 1) _ hcap hblen (by rw [hlen] at hw; omega)]
      rw [List.append_assoc, List.singleton_append]
      rw [show ({ e with seq := n } :: stampFrom (n + 1) es) =
        stampFrom n (e :: es) from rfl]
      congr 1
      omega

/-- An entry used by the C8 counterexample and witness. -/
def c8Entry : LogEntry :=
  { seq := 0, level := .Info, ts_ms := none, source := .App, context := none,
    message := "x", run_id := 0 }

/-- Counterexample to C8 as stated: with capacity `N = 0` and `M = 1`
append, the claim demands the buffer hold exactly the last `0` entries
(none), but the source evicts only when `len == cap`, which after the
first push never holds again, so the buffer holds the entry. -/
theorem log_buffer_fifo_counterexample :
    ((LogBuffer.new 0).appendAll [c8Entry]).buf ≠ lastN 0 (stampFrom 1 [c8Entry]) ∧
    ((LogBuffer.new 0).appendAll [c8Entry]).buf.length = 1 := by
  constructor
  · decide
  · decide

/-- C8 (amended): for every capacity `N ≥ 1` and `M > N` appends (with
`M + 1` below the `u64` wrap) to a fresh buffer, the buffer holds
exactly the last `N` appended entries in insertion order, stamped with
seqs `M-N+1 … M`, and `next_seq` ends at `M + 1` (append assigns
1-based consecutive seqs); `clear` resets `next_seq` to 1 and empties
the buffer. -/
theorem log_buffer_fifo :
    (∀ (cap : Nat) (es : List LogEntry), 1 ≤ cap → cap < es.length →
      es.length + 1 < 2 ^ 64 →
      ((LogBuffer.new cap).appendAll es).buf = lastN cap (stampFrom 1 es) ∧
      ((LogBuffer.new cap).appendAll es).buf.map (fun e => e.seq) =
        List.range' (es.length - cap + 1) cap ∧
      ((LogBuffer.new cap).appendAll es).next_seq = es.length + 1) ∧
    (∀ b : LogBuffer, b.clear.next_seq = 1 ∧ b.clear.buf = []) := by
  constructor
  · intro cap es hcap hlt hw
    have hall : LogBuffer.appendAll ⟨cap, 1, []⟩ es =
        ⟨cap, 1 + es.length, lastN cap ([] ++ stampFrom 1 es)⟩ :=
      appendAll_closed es cap 1 [] hcap (by simp) (by omega)
    rw [List.nil_append] at hall
    have hbuf : ((LogBuffer.new cap).appendAll es).buf = lastN cap (stampFrom 1 es) := by
      rw [show LogBuffer.new cap = ⟨cap, 1, []⟩ from rfl, hall]
    refine ⟨hbuf, ?_, ?_⟩
    · rw [hbuf]
      unfold lastN
      rw [List.map_drop, stampFrom_map_seq, stampFrom_length, range'_drop]
      congr 1 <;> omega
    · rw [show LogBuffer.new cap = ⟨cap, 1, []⟩ from rfl, hall]
      simp
      omega
  · intro b
    exact ⟨rfl, rfl⟩

/-- Witness for the amended C8 at capacity 1 and two appends: the
buffer holds only the second entry, stamped with seq 2. -/
theorem log_buffer_fifo_witness :
    ((LogBuffer.new 1).appendAll [c8Entry, c8Entry]).buf =
      lastN 1 (stampFrom 1 [c8Entry, c8Entry]) ∧
    ((LogBuffer.new 1).appendAll [c8Entry, c8Entry]).buf.map (fun e => e.seq) =
      List.range' 2 1 ∧
    ((LogBuffer.new 1).appendAll [c8Entry, c8Entry]).next_seq = 3 :=
  log_buffer_fifo.1 1 [c8Entry, c8Entry] (by decide) (by decide) (by norm_num)

/-! ### persistence.rs: the event log and replay projection -/

/-- The `PersistedExecutionMode` from persistence.rs. -/
inductive PersistedExecutionMode
  | Simulated
  | Runtime
  deriving DecidableEq, Repr

/-- The `PersistedWorkflowStatus` from persistence.rs. -/
inductive PersistedWorkflowStatus
  | Running
  | AwaitingApproval
  | Blocked
  | Completed
  | Failed
  deriving DecidableEq, Repr

/-- The `PersistedPersonaPolicy` from persistence.rs. -/
structure PersistedPersonaPolicy where
  tier_ceiling : String
  explanation_depth : String
  output_format : String
  deriving DecidableEq, Repr

/-- The `PersistedShellEvent` from persistence.rs. -/
inductive PersistedShellEvent
  | WorkflowRunStarted (run_id : Nat) (template_id : String)
      (execution_mode : PersistedExecutionMode) (policy_tier : String)
      (persona_policy : PersistedPersonaPolicy)
  | WorkflowStatusChanged (run_id : Nat) (status : PersistedWorkflowStatus)
      (step_index : Nat) (reason : Option String)
  | ToolInvocationIssued (run_id : Nat) (invocation_id : Nat) (tool_id : String)
  | ToolResultRecorded (run_id : Nat) (invocation_id : Nat) (tool_id : String)
      (status : String)
  | ApprovalRequested (request_id : String) (run_id : Nat) (invocation_id : Nat)
      (tool_id : String) (risk : String) (preview : String)
  | ApprovalResolved (request_id : String) (run_id : Nat) (decision : String)
  | WorkflowResumed (run_id : Nat)
  | PolicyChanged (tier : String) (source : String)
  | PersonaPolicyChanged (persona : String) (policy : PersistedPersonaPolicy)
      (source : String)
  deriving DecidableEq, Repr

/-- The `PersistedShellEventRecord` from persistence.rs. -/
structure PersistedShellEventRecord where
  seq : Nat
  ts_ms : Int
  event : PersistedShellEvent
  deriving DecidableEq, Repr

/-- The `ReplayedWorkflowRun` from persistence.rs. -/
structure ReplayedWorkflowRun where
  run_id : Nat
  template_id : String
  execution_mode : PersistedExecutionMode
  step_index : Nat
  status : PersistedWorkflowStatus
  pending_request_id : Option String
  pending_tool_id : Option String
  pending_invocation_id : Option Nat
  next_invocation_id : Nat
  blocked_reason : Option String
  deriving DecidableEq, Repr

/-- The `PersistedShellSnapshot` from persistence.rs. -/
structure PersistedShellSnapshot where
  version : Nat
  seq : Nat
  workflow : Option ReplayedWorkflowRun
  deriving DecidableEq, Repr

/-- The match arm of `replay_workflow_from` for one record. -/
def replayStep (latest : Option ReplayedWorkflowRun)
    (record : PersistedShellEventRecord) : Option ReplayedWorkflowRun :=
  match record.event with
  | .WorkflowRunStarted run_id template_id execution_mode _ _ =>
    some { run_id := run_id, template_id := template_id,
           execution_mode := execution_mode, step_index := 0,
           status := .Running, pending_request_id := none,
           pending_tool_id := none, pending_invocation_id := none,
           next_invocation_id := 1, blocked_reason := none }
  | .WorkflowStatusChanged run_id status step_index reason =>
    match latest with
    | some run =>
      if run.run_id = run_id then
        let run := { run with
          status := status, step_index := step_index, blocked_reason := reason }
        if status = .AwaitingApproval then some run
        else some { run with
          pending_request_id := none
          pending_tool_id := none
          pending_invocation_id := none }
      else some run
    | none => none
  | .ToolResultRecorded run_id _ _ status =>
    match latest with
    | some run =>
      if run.run_id = run_id ∧ status = "succeeded" then
        some { run with
          step_index := sat64 (run.step_index + 1)
          next_invocation_id := sat64 (run.next_invocation_id + 1) }
      else some run
    | none => none
  | .ApprovalRequested request_id run_id invocation_id tool_id _ _ =>
    match latest with
    | some run =>
      if run.run_id = run_id then
        some { run with
          status := .AwaitingApproval
          blocked_reason := none
          pending_request_id := some request_id
          pending_tool_id := some tool_id
          pending_invocation_id := some invocation_id
          next_invocation_id := sat64 (invocation_id + 1) }
      else some run
    | none => none
  | .ApprovalResolved request_id run_id decision =>
    match latest with
    | some run =>
      if run.run_id = run_id ∧ run.pending_request_id = some request_id then
        some { run with
          status := if decision = "approved" then .Running else .Blocked
          blocked_reason := none
          pending_request_id := none
          pending_tool_id := none
          pending_invocation_id := none }
      else some run
    | none => none
  | .WorkflowResumed run_id =>
    match latest with
    | some run =>
      if run.run_id = run_id then
        some { run with
          status := .Running
          blocked_reason := none
          pending_request_id := none
          pending_tool_id := none
          pending_invocation_id := none }
      else some run
    | none => none
  | .ToolInvocationIssued _ _ _ => latest
  | .PolicyChanged _ _ => latest
  | .PersonaPolicyChanged _ _ _ => latest

/-- The `sort_by_key(seq)` order of `replay_workflow_from`. -/
def recSeqLE (a b : PersistedShellEventRecord) : Prop := a.seq ≤ b.seq

instance : DecidableRel recSeqLE := fun a b => Nat.decLe a.seq b.seq

instance : IsTotal PersistedShellEventRecord recSeqLE :=
  ⟨fun a b => Nat.le_total a.seq b.seq⟩

instance : IsTrans PersistedShellEventRecord recSeqLE :=
  ⟨fun _ _ _ h₁ h₂ => Nat.le_trans h₁ h₂⟩

/-- The `replay_workflow_from` from persistence.rs: sort the records by
`seq` (the Rust `sort_by_key` is stable; on the distinct-seq inputs
considered here any correct sort yields the same list), then fold the
events over the initial run. -/
def replay_workflow_from (initial : Option ReplayedWorkflowRun)
    (records : List PersistedShellEventRecord) : Option ReplayedWorkflowRun :=
  (records.insertionSort recSeqLE).foldl replayStep initial

/-- The `replay_latest_workflow` from persistence.rs. -/
def replay_latest_workflow (records : List PersistedShellEventRecord) :
    Option ReplayedWorkflowRun :=
  replay_workflow_from none records

/-! ## C9: replay is insensitive to record order under distinct seqs -/

/-- The strict seq order. -/
def recSeqLT (a b : PersistedShellEventRecord) : Prop := a.seq < b.seq

instance : IsAntisymm PersistedShellEventRecord recSeqLT :=
  ⟨fun _ _ h₁ h₂ => absurd h₂ (Nat.lt_asymm h₁)⟩

theorem sorted_le_nodup_strict (l : List PersistedShellEventRecord)
    (hs : List.Sorted recSeqLE l)
    (hn : (l.map (fun r => r.seq)).Nodup) : List.Pairwise recSeqLT l := by
  induction l with
  | nil => exact List.Pairwise.nil
  | cons a l ih =>
    rw [List.sorted_cons] at hs
    rw [List.map_cons, List.nodup_cons] at hn
    refine List.Pairwise.cons ?_ (ih hs.2 hn.2)
    intro b hb
    have hle : a.seq ≤ b.seq := hs.1 b hb
    have hne : a.seq ≠ b.seq := by
      intro hEq
      exact hn.1 (hEq ▸ List.mem_map_of_mem (fun r => r.seq) hb)
    exact Nat.lt_of_le_of_ne hle hne

/-- C9: `replay_workflow_from` sorts by `seq` before folding, so on
record lists with pairwise distinct seqs it is permutation-invariant. -/
theorem replay_workflow_from_perm (initial : Option ReplayedWorkflowRun)
    (l₁ l₂ : List PersistedShellEventRecord)
    (hperm : l₁.Perm l₂) (hnodup : (l₁.map (fun r => r.seq)).Nodup) :
    replay_workflow_from initial l₁ = replay_workflow_from initial l₂ := by
  have hs₁ : List.Sorted recSeqLE (l₁.insertionSort recSeqLE) :=
    List.sorted_insertionSort recSeqLE l₁
  have hs₂ : List.Sorted recSeqLE (l₂.insertionSort recSeqLE) :=
    List.sorted_insertionSort recSeqLE l₂
  have hp₁ : (l₁.insertionSort recSeqLE).Perm l₁ := List.perm_insertionSort recSeqLE l₁
  have hp₂ : (l₂.insertionSort recSeqLE).Perm l₂ := List.perm_insertionSort recSeqLE l₂
  have hn₁ : ((l₁.insertionSort recSeqLE).map (fun r => r.seq)).Nodup :=
    ((hp₁.map (fun r => r.seq)).nodup_iff).mpr hnodup
  have hn₂ : ((l₂.insertionSort recSeqLE).map (fun r => r.seq)).Nodup :=
    ((hp₂.map (fun r => r.seq)).nodup_iff).mpr ((hperm.map (fun r => r.seq)).nodup_iff.mp hnodup)
  have hperm' : (l₁.insertionSort recSeqLE).Perm (l₂.insertionSort recSeqLE) :=
    (hp₁.trans hperm).trans hp₂.symm
  have heq : l₁.insertionSort recSeqLE = l₂.insertionSort recSeqLE :=
    List.eq_of_perm_of_sorted hperm'
      (sorted_le_nodup_strict _ hs₁ hn₁) (sorted_le_nodup_strict _ hs₂ hn₂)
  rw [replay_workflow_from, replay_workflow_from, heq]

/-- Two concrete records with distinct seqs, for the C9 witness. -/
def c9Rec1 : PersistedShellEventRecord :=
  { seq := 1, ts_ms := 0,
    event := .WorkflowRunStarted 1 "scan_plan_diff_verify" .Simulated "balanced"
      { tier_ceiling := "permissive", explanation_depth := "brief",
        output_format := "technical-first" } }

/-- Second concrete record (seq 2). -/
def c9Rec2 : PersistedShellEventRecord :=
  { seq := 2, ts_ms := 0,
    event := .WorkflowStatusChanged 1 .Running 1 none }

/-- Witness for C9 at a concrete permutation. -/
theorem replay_workflow_from_perm_witness :
    replay_workflow_from none [c9Rec2, c9Rec1] =
      replay_workflow_from none [c9Rec1, c9Rec2] :=
  replay_workflow_from_perm none [c9Rec2, c9Rec1] [c9Rec1, c9Rec2]
    (by decide) (by decide)

/-! ### policy_engine.rs -/

/-- The `PolicyMode` from policy_engine.rs. -/
inductive PolicyMode
  | AllowByDefault
  | DenyByDefault
  deriving DecidableEq, Repr

/-- The `PolicyPrecedence` from policy_engine.rs. -/
inductive PolicyPrecedence
  | FirstMatch
  | BestScore
  deriving DecidableEq, Repr

/-- The `PolicyScope` from policy_engine.rs. -/
structure PolicyScope where
  branches : List String
  environments : List String
  deriving DecidableEq, Repr

/-- The `ApprovalConfig` from policy_engine.rs (`required` is the `u8`). -/
structure ApprovalConfig where
  required : Nat
  roles : List String
  justification_required : Bool
  justification_prompt : Option String
  deriving DecidableEq, Repr

/-- The `PolicyDefaults` from policy_engine.rs. -/
structure PolicyDefaults where
  approval : ApprovalConfig
  evidence_required : List String
  deriving DecidableEq, Repr

/-- The `RuleAction` from policy_engine.rs.  The `then` field of a rule is
one of these. -/
inductive RuleAction
  | Allow (message : Option String)
  | Block (message : String) (remediation : Option (List String))
  | RequireApproval (message : String) (approval : ApprovalConfig)
  deriving DecidableEq, Repr

/-- The `PolicyRule` from policy_engine.rs.  `when` and `then` are Lean
keywords, hence the underscore suffixes. -/
structure PolicyRule where
  id : String
  when_ : String
  then_ : RuleAction
  deriving DecidableEq, Repr

/-- The `ReviewPolicy` from policy_engine.rs. -/
structure ReviewPolicy where
  id : String
  version : String
  mode : PolicyMode
  precedence : PolicyPrecedence
  applies_to : PolicyScope
  defaults : PolicyDefaults
  rules : List PolicyRule
  deriving DecidableEq, Repr

/-- The `DecisionOutcome` from policy_engine.rs. -/
inductive DecisionOutcome
  | Allowed
  | Blocked
  | ApprovalRequired
  deriving DecidableEq, Repr

/-- The `PolicyDecision` from policy_engine.rs. -/
structure PolicyDecision where
  policy_id : String
  decision : DecisionOutcome
  matched_rule_id : Option String
  message : String
  requirements : Option ApprovalConfig
  deriving DecidableEq, Repr

/-- The `Signals` from policy_engine.rs. -/
structure Signals where
  diff_files_changed : Nat
  diff_lines_added : Nat
  diff_lines_deleted : Nat
  risk_class : String
  diff_file_names : String
  commit_message : String
  diff_added_content : String
  new_file_contents : List String
  new_file_paths : List String
  deriving DecidableEq, Repr

/-- The `RuleAction::to_decision_outcome`. -/
def RuleAction.to_decision_outcome : RuleAction → DecisionOutcome
  | .Allow _ => .Allowed
  | .Block _ _ => .Blocked
  | .RequireApproval _ _ => .ApprovalRequired

/-- The `RuleAction::message`. -/
def RuleAction.message : RuleAction → String
  | .Allow message => message.getD ""
  | .Block message _ => message
  | .RequireApproval message _ => message

/-- The `RuleAction::approval_config`. -/
def RuleAction.approval_config : RuleAction → Option ApprovalConfig
  | .RequireApproval _ approval => some approval
  | _ => none

/-- The `for` loop of `ReviewPolicy::evaluate`: return the decision of
the first rule whose `when` condition matches.  `evaluate_condition`
(an `evalexpr`/`regex` interpreter over the `Signals` bindings) is an
external collaborator here and is modelled as an uninterpreted total
function `cond`; expression errors already surface inside it as a
`false` match. -/
def evalRules (cond : String → Signals → Bool) (policy_id : String)
    (signals : Signals) : List PolicyRule → Option PolicyDecision
  | [] => none
  | rule :: rules =>
    if cond rule.when_ signals then
      some { policy_id := policy_id
             decision := rule.then_.to_decision_outcome
             matched_rule_id := some rule.id
             message := rule.then_.message
             requirements := rule.then_.approval_config }
    else evalRules cond policy_id signals rules

/-- The `ReviewPolicy::evaluate` from policy_engine.rs, parameterised by
the condition evaluator. -/
def ReviewPolicy.evaluate (cond : String → Signals → Bool)
    (policy : ReviewPolicy) (signals : Signals) : PolicyDecision :=
  match evalRules cond policy.id signals policy.rules with
  | some decision => decision
  | none =>
    match policy.mode with
    | .AllowByDefault =>
      { policy_id := policy.id, decision := .Allowed, matched_rule_id := none,
        message := "Allowed by default", requirements := none }
    | .DenyByDefault =>
      { policy_id := policy.id, decision := .ApprovalRequired,
        matched_rule_id := none, message := "Approval required by default",
        requirements := some policy.defaults.approval }

/-! ## C6: first-match rule evaluation with mode defaults -/

theorem evalRules_eq_find (cond : String → Signals → Bool) (policy_id : String)
    (signals : Signals) (rules : List PolicyRule) :
    evalRules cond policy_id signals rules =
      (rules.find? (fun rule => cond rule.when_ signals)).map fun rule =>
        { policy_id := policy_id
          decision := rule.then_.to_decision_outcome
          matched_rule_id := some rule.id
          message := rule.then_.message
          requirements := rule.then_.approval_config } := by
  induction rules with
  | nil => rfl
  | cons rule rules ih =>
    by_cases h : cond rule.when_ signals = true
    · rw [evalRules, if_pos h]
      simp [List.find?_cons, h]
    · have hf : cond rule.when_ signals = false := by simpa using h
      rw [evalRules, if_neg h, ih]
      simp [List.find?_cons, hf]

/-- C6: `evaluate` returns the decision of the first rule (in declared
order) whose `when` condition matches — with the outcome, message and
approval requirements taken from that rule's `then` action and
`matched_rule_id` set to the rule's id — and, when no rule matches,
`Allowed` for `allow_by_default` and `ApprovalRequired` carrying the
policy's default approval config for `deny_by_default`. -/
theorem evaluate_first_match (cond : String → Signals → Bool)
    (policy : ReviewPolicy) (signals : Signals) :
    ReviewPolicy.evaluate cond policy signals =
      match policy.rules.find? (fun rule => cond rule.when_ signals) with
      | some rule =>
        { policy_id := policy.id
          decision := rule.then_.to_decision_outcome
          matched_rule_id := some rule.id
          message := rule.then_.message
          requirements := rule.then_.approval_config }
      | none =>
        match policy.mode with
        | .AllowByDefault =>
          { policy_id := policy.id, decision := .Allowed,
            matched_rule_id := none, message := "Allowed by default",
            requirements := none }
        | .DenyByDefault =>
          { policy_id := policy.id, decision := .ApprovalRequired,
            matched_rule_id := none, message := "Approval required by default",
            requirements := some policy.defaults.approval } := by
  rw [ReviewPolicy.evaluate, evalRules_eq_find]
  cases policy.rules.find? (fun rule => cond rule.when_ signals) with
  | none => rfl
  | some rule => rfl

/-! ### main.rs: the driver's event/snapshot discipline

`execute_workflow` appends events through `ShellEventStore::append`
(which, from an empty store, assigns `seq = length + 1`) and calls
`save_snapshots` with the seq of the event just appended.
`save_snapshots` recomputes `replay_latest_workflow` over the full
journal and demotes a live `Running` status to
`Blocked{reason="interrupted"}`. -/

/-- One `store.append(event)` on a journal built from an empty store. -/
def withAppend (log : List PersistedShellEventRecord) (ts : Int)
    (e : PersistedShellEvent) : List PersistedShellEventRecord :=
  log ++ [{ seq := log.length + 1, ts_ms := ts, event := e }]

/-- The `Running → Blocked{"interrupted"}` rewrite, unconditionally. -/
def interruptedOf (run : ReplayedWorkflowRun) : ReplayedWorkflowRun :=
  { run with status := .Blocked, blocked_reason := some "interrupted" }

/-- The demotion closure in `save_snapshots`. -/
def demote (run : ReplayedWorkflowRun) : ReplayedWorkflowRun :=
  if run.status = .Running then interruptedOf run else run

/-- The `save_snapshots(store, path, seq)` where `seq` is the seq of the
last appended event (= the journal length). -/
def snapAfter (log : List PersistedShellEventRecord) : PersistedShellSnapshot :=
  { version := 1, seq := log.length,
    workflow := (replay_latest_workflow log).map demote }

/-- The `request_id = "req-{run_id}-{invocation_id}"` (main.rs). -/
def reqId (rid inv : Nat) : String :=
  "req-" ++ toString rid ++ "-" ++ toString inv

/-- The tool id of each step of the scan → plan → diff → verify
template (workflow.rs). -/
def toolIdAt : Nat → String
  | 0 => "scan_repo"
  | 1 => "generate_plan"
  | 2 => "compute_diff"
  | _ => "verify"

/-- The step loop of `execute_workflow` as a trace relation.
`LoopRun rid step inv log snaps log' snaps'` holds when the loop,
entered at step index `step` with `next_invocation_id = inv` over
journal `log` and already-written snapshots `snaps`, can run to driver
return leaving journal `log'` and snapshot list `snaps'`.  The policy
gate verdict, the approval prompt answer and the tool outcome are
external inputs and appear as the choice of constructor; payload
strings that replay ignores (reasons, risk labels, previews,
timestamps) are universally quantified. -/
inductive LoopRun (rid : Nat) :
    Nat → Nat → List PersistedShellEventRecord → List PersistedShellSnapshot →
    List PersistedShellEventRecord → List PersistedShellSnapshot → Prop
  | deny (step inv : Nat) (log log₁ : List PersistedShellEventRecord)
      (snaps : List PersistedShellSnapshot) (ts : Int) (reason : String)
      (hstep : step < 4)
      (h₁ : log₁ = withAppend log ts
        (.WorkflowStatusChanged rid .Blocked step (some reason))) :
      LoopRun rid step inv log snaps log₁ (snaps ++ [snapAfter log₁])
  | approvalDenied (step inv : Nat)
      (log log₁ log₂ log₃ : List PersistedShellEventRecord)
      (snaps : List PersistedShellSnapshot) (ts₁ ts₂ ts₃ : Int)
      (risk preview : String)
      (hstep : step < 4)
      (h₁ : log₁ = withAppend log ts₁
        (.ApprovalRequested (reqId rid inv) rid inv (toolIdAt step) risk preview))
      (h₂ : log₂ = withAppend log₁ ts₂
        (.ApprovalResolved (reqId rid inv) rid "denied"))
      (h₃ : log₃ = withAppend log₂ ts₃
        (.WorkflowStatusChanged rid .Blocked step (some "approval denied"))) :
      LoopRun rid step inv log snaps log₃
        (snaps ++ [snapAfter log₂, snapAfter log₃])
  | toolFail (step inv : Nat)
      (log log₁ log₂ log₃ : List PersistedShellEventRecord)
      (snaps : List PersistedShellSnapshot) (ts₁ ts₂ ts₃ : Int)
      (st : String) (pst : PersistedWorkflowStatus)
      (hstep : step < 4)
      (hout : (st = "failed" ∧ pst = .Failed) ∨ (st = "blocked" ∧ pst = .Blocked))
      (h₁ : log₁ = withAppend log ts₁
        (.ToolInvocationIssued rid inv (toolIdAt step)))
      (h₂ : log₂ = withAppend log₁ ts₂
        (.ToolResultRecorded rid inv (toolIdAt step) st))
      (h₃ : log₃ = withAppend log₂ ts₃
        (.WorkflowStatusChanged rid pst (step + 1)
          (some "tool execution did not succeed"))) :
      LoopRun rid step inv log snaps log₃ (snaps ++ [snapAfter log₃])
  | toolSucceed (step inv : Nat)
      (log log₁ log₂ log₃ log' : List PersistedShellEventRecord)
      (snaps snaps' : List PersistedShellSnapshot) (ts₁ ts₂ ts₃ : Int)
      (hstep : step < 4)
      (h₁ : log₁ = withAppend log ts₁
        (.ToolInvocationIssued rid inv (toolIdAt step)))
      (h₂ : log₂ = withAppend log₁ ts₂
        (.ToolResultRecorded rid inv (toolIdAt step) "succeeded"))
      (h₃ : log₃ = withAppend log₂ ts₃
        (.WorkflowStatusChanged rid .Running (step + 1) none))
      (hrest : LoopRun rid (step + 1) (inv + 1) log₃
        (snaps ++ [snapAfter log₃]) log' snaps') :
      LoopRun rid step inv log snaps log' snaps'
  | approvedToolFail (step inv : Nat)
      (log log₁ log₂ log₃ log₄ log₅ : List PersistedShellEventRecord)
      (snaps : List PersistedShellSnapshot) (ts₁ ts₂ ts₃ ts₄ ts₅ : Int)
      (risk preview : String) (st : String) (pst : PersistedWorkflowStatus)
      (hstep : step < 4)
      (hout : (st = "failed" ∧ pst = .Failed) ∨ (st = "blocked" ∧ pst = .Blocked))
      (h₁ : log₁ = withAppend log ts₁
        (.ApprovalRequested (reqId rid inv) rid inv (toolIdAt step) risk preview))
      (h₂ : log₂ = withAppend log₁ ts₂
        (.ApprovalResolved (reqId rid inv) rid "approved"))
      (h₃ : log₃ = withAppend log₂ ts₃
        (.ToolInvocationIssued rid inv (toolIdAt step)))
      (h₄ : log₄ = withAppend log₃ ts₄
        (.ToolResultRecorded rid inv (toolIdAt step) st))
      (h₅ : log₅ = withAppend log₄ ts₅
        (.WorkflowStatusChanged rid pst (step + 1)
          (some "tool execution did not succeed"))) :
      LoopRun rid step inv log snaps log₅
        (snaps ++ [snapAfter log₂, snapAfter log₅])
  | approvedToolSucceed (step inv : Nat)
      (log log₁ log₂ log₃ log₄ log₅ log' : List PersistedShellEventRecord)
      (snaps snaps' : List PersistedShellSnapshot) (ts₁ ts₂ ts₃ ts₄ ts₅ : Int)
      (risk preview : String)
      (hstep : step < 4)
      (h₁ : log₁ = withAppend log ts₁
        (.ApprovalRequested (reqId rid inv) rid inv (toolIdAt step) risk preview))
      (h₂ : log₂ = withAppend log₁ ts₂
        (.ApprovalResolved (reqId rid inv) rid "approved"))
      (h₃ : log₃ = withAppend log₂ ts₃
        (.ToolInvocationIssued rid inv (toolIdAt step)))
      (h₄ : log₄ = withAppend log₃ ts₄
        (.ToolResultRecorded rid inv (toolIdAt step) "succeeded"))
      (h₅ : log₅ = withAppend log₄ ts₅
        (.WorkflowStatusChanged rid .Running (step + 1) none))
      (hrest : LoopRun rid (step + 1) (inv + 1) log₅
        (snaps ++ [snapAfter log₂, snapAfter log₅]) log' snaps') :
      LoopRun rid step inv log snaps log' snaps'
  | done (step inv : Nat) (log log₂ : List PersistedShellEventRecord)
      (snaps : List PersistedShellSnapshot) (ts : Int)
      (hstep : 4 ≤ step)
      (h₂ : log₂ = withAppend log ts
        (.WorkflowStatusChanged rid .Completed 4 none)) :
      LoopRun rid step inv log snaps log₂ (snaps ++ [snapAfter log₂])
  | doneCommit (step inv : Nat)
      (log log₁ log₂ : List PersistedShellEventRecord)
      (snaps : List PersistedShellSnapshot) (ts₀ ts : Int)
      (hstep : 4 ≤ step)
      (h₁ : log₁ = withAppend log ts₀
        (.ToolInvocationIssued rid inv "git_commit"))
      (h₂ : log₂ = withAppend log₁ ts
        (.WorkflowStatusChanged rid .Completed 4 none)) :
      LoopRun rid step inv log snaps log₂ (snaps ++ [snapAfter log₂])

/-- A complete `run` command over an empty store (`run_workflow` in
main.rs): append `WorkflowRunStarted` with `run_id = 1`, snapshot, then
run the step loop from step 0 with `next_invocation_id = 1`. -/
inductive NewRun : List PersistedShellEventRecord →
    List PersistedShellSnapshot → Prop
  | mk (log₁ log' : List PersistedShellEventRecord)
      (snaps' : List PersistedShellSnapshot) (ts : Int) (tier : String)
      (pp : PersistedPersonaPolicy)
      (h₁ : log₁ = withAppend [] ts
        (.WorkflowRunStarted 1 "scan_plan_diff_verify" .Simulated tier pp))
      (hloop : LoopRun 1 0 1 log₁ [snapAfter log₁] log' snaps') :
      NewRun log' snaps'

/-! ### Journal structure: positional seqs and sortedness -/

/-- The records carry seqs `k+1, k+2, …` in order. -/
def SeqFrom : Nat → List PersistedShellEventRecord → Prop
  | _, [] => True
  | k, r :: l => r.seq = k + 1 ∧ SeqFrom (k + 1) l

/-- A journal built from an empty store: seqs are `1, 2, …`. -/
def SeqOk (log : List PersistedShellEventRecord) : Prop := SeqFrom 0 log

theorem withAppend_length (log : List PersistedShellEventRecord) (ts : Int)
    (e : PersistedShellEvent) : (withAppend log ts e).length = log.length + 1 := by
  simp [withAppend]

theorem seqFrom_append (l : List PersistedShellEventRecord) :
    ∀ (k : Nat) (ts : Int) (e : PersistedShellEvent), SeqFrom k l →
      SeqFrom k (l ++ [{ seq := k + l.length + 1, ts_ms := ts, event := e }]) := by
  induction l with
  | nil =>
    intro k ts e _
    exact ⟨by simp, trivial⟩
  | cons a l ih =>
    intro k ts e h
    refine ⟨h.1, ?_⟩
    have heq : k + (a :: l).length + 1 = (k + 1) + l.length + 1 := by
      simp only [List.length_cons]
      omega
    rw [heq]
    exact ih (k + 1) ts e h.2

theorem seqOk_withAppend {log : List PersistedShellEventRecord} {ts : Int}
    {e : PersistedShellEvent} (h : SeqOk log) : SeqOk (withAppend log ts e) := by
  have := seqFrom_append log 0 ts e h
  simpa [withAppend] using this

theorem seqFrom_mem_le (l : List PersistedShellEventRecord) :
    ∀ k, SeqFrom k l → ∀ r ∈ l, r.seq ≤ k + l.length := by
  induction l with
  | nil => intro k _ r hr; cases hr
  | cons a l ih =>
    intro k h r hr
    obtain ⟨h1, h2⟩ := h
    rcases List.mem_cons.mp hr with hra | hrl
    · subst hra
      simp only [List.length_cons]
      omega
    · have := ih (k + 1) h2 r hrl
      simp only [List.length_cons]
      omega

theorem seqFrom_mem_gt (l : List PersistedShellEventRecord) :
    ∀ k, SeqFrom k l → ∀ r ∈ l, k < r.seq := by
  induction l with
  | nil => intro k _ r hr; cases hr
  | cons a l ih =>
    intro k h r hr
    obtain ⟨h1, h2⟩ := h
    rcases List.mem_cons.mp hr with hra | hrl
    · subst hra
      omega
    · have := ih (k + 1) h2 r hrl
      omega

theorem seqFrom_pairwise (l : List PersistedShellEventRecord) :
    ∀ k, SeqFrom k l → l.Pairwise recSeqLT := by
  induction l with
  | nil => intro k _; exact List.Pairwise.nil
  | cons a l ih =>
    intro k h
    obtain ⟨h1, h2⟩ := h
    refine List.Pairwise.cons ?_ (ih (k + 1) h2)
    intro b hb
    have := seqFrom_mem_gt l (k + 1) h2 b hb
    show a.seq < b.seq
    omega

/-- The `store.load_since(s)` over the full journal. -/
def logTail (s : Nat) (log : List PersistedShellEventRecord) :
    List PersistedShellEventRecord :=
  log.filter fun r => s < r.seq

theorem logTail_self {log : List PersistedShellEventRecord} (h : SeqOk log) :
    logTail log.length log = [] := by
  rw [logTail, List.filter_eq_nil_iff]
  intro r hr
  have := seqFrom_mem_le log 0 h r hr
  simp
  omega

theorem logTail_withAppend {log : List PersistedShellEventRecord} {s : Nat}
    (hs : s ≤ log.length) (ts : Int) (e : PersistedShellEvent) :
    logTail s (withAppend log ts e) =
      logTail s log ++ [{ seq := log.length + 1, ts_ms := ts, event := e }] := by
  rw [logTail, withAppend, List.filter_append, logTail]
  congr 1
  simp
  omega

theorem replay_of_sorted (init : Option ReplayedWorkflowRun)
    (l : List PersistedShellEventRecord) (h : List.Sorted recSeqLE l) :
    replay_workflow_from init l = l.foldl replayStep init := by
  rw [replay_workflow_from, List.Sorted.insertionSort_eq h]

theorem replay_append_one (init : Option ReplayedWorkflowRun)
    (l : List PersistedShellEventRecord) (r : PersistedShellEventRecord)
    (hl : List.Sorted recSeqLE (l ++ [r])) :
    replay_workflow_from init (l ++ [r]) =
      replayStep (replay_workflow_from init l) r := by
  have hl' : List.Sorted recSeqLE l :=
    List.Pairwise.sublist (List.sublist_append_left l [r]) hl
  rw [replay_of_sorted _ _ hl, replay_of_sorted _ _ hl', List.foldl_append,
    List.foldl_cons, List.foldl_nil]

theorem replay_full_append (init : Option ReplayedWorkflowRun)
    {log : List PersistedShellEventRecord} (h : SeqOk log) (ts : Int)
    (e : PersistedShellEvent) :
    replay_workflow_from init (withAppend log ts e) =
      replayStep (replay_workflow_from init log)
        { seq := log.length + 1, ts_ms := ts, event := e } := by
  have hp : List.Pairwise recSeqLT (withAppend log ts e) :=
    seqFrom_pairwise _ 0 (seqOk_withAppend h)
  exact replay_append_one init log _ (hp.imp fun hab => Nat.le_of_lt hab)

theorem replay_tail_append (w : Option ReplayedWorkflowRun)
    {log : List PersistedShellEventRecord} {s : Nat} (h : SeqOk log)
    (hs : s ≤ log.length) (ts : Int) (e : PersistedShellEvent) :
    replay_workflow_from w (logTail s (withAppend log ts e)) =
      replayStep (replay_workflow_from w (logTail s log))
        { seq := log.length + 1, ts_ms := ts, event := e } := by
  have hp : List.Pairwise recSeqLT (withAppend log ts e) :=
    seqFrom_pairwise _ 0 (seqOk_withAppend h)
  have hp2 : List.Pairwise recSeqLT (logTail s (withAppend log ts e)) :=
    List.Pairwise.filter _ hp
  rw [logTail_withAppend hs ts e] at hp2
  rw [logTail_withAppend hs ts e]
  exact replay_append_one w _ _ (hp2.imp fun hab => Nat.le_of_lt hab)

/-! ### One-event effect of `replayStep` on a live run -/

/-- Effect of `WorkflowStatusChanged` on a matching run. -/
def wscApply (x : ReplayedWorkflowRun) (st : PersistedWorkflowStatus)
    (idx : Nat) (reason : Option String) : ReplayedWorkflowRun :=
  let x := { x with status := st, step_index := idx, blocked_reason := reason }
  if st = .AwaitingApproval then x
  else { x with
    pending_request_id := none
    pending_tool_id := none
    pending_invocation_id := none }

/-- Effect of `ToolResultRecorded`. -/
def trrApply (x : ReplayedWorkflowRun) (rid' : Nat) (st : String) :
    ReplayedWorkflowRun :=
  if x.run_id = rid' ∧ st = "succeeded" then
    { x with
      step_index := sat64 (x.step_index + 1)
      next_invocation_id := sat64 (x.next_invocation_id + 1) }
  else x

/-- Effect of `ApprovalRequested` on a matching run. -/
def arApply (x : ReplayedWorkflowRun) (request_id : String)
    (invocation_id : Nat) (tool_id : String) : ReplayedWorkflowRun :=
  { x with
    status := .AwaitingApproval
    blocked_reason := none
    pending_request_id := some request_id
    pending_tool_id := some tool_id
    pending_invocation_id := some invocation_id
    next_invocation_id := sat64 (invocation_id + 1) }

/-- Effect of `ApprovalResolved` on a matching run with matching
pending request. -/
def aresApply (x : ReplayedWorkflowRun) (decision : String) :
    ReplayedWorkflowRun :=
  { x with
    status := if decision = "approved" then .Running else .Blocked
    blocked_reason := none
    pending_request_id := none
    pending_tool_id := none
    pending_invocation_id := none }

theorem step_wsc_eq (x : ReplayedWorkflowRun) {rid' : Nat}
    (hrid : x.run_id = rid') (n : Nat) (ts : Int)
    (st : PersistedWorkflowStatus) (idx : Nat) (reason : Option String) :
    replayStep (some x)
        { seq := n, ts_ms := ts,
          event := .WorkflowStatusChanged rid' st idx reason } =
      some (wscApply x st idx reason) := by
  simp only [replayStep, wscApply, hrid, if_pos]
  split <;> rfl

theorem step_trr_eq (x : ReplayedWorkflowRun) (n : Nat) (ts : Int)
    (rid' inv : Nat) (tool st : String) :
    replayStep (some x)
        { seq := n, ts_ms := ts,
          event := .ToolResultRecorded rid' inv tool st } =
      some (trrApply x rid' st) := by
  simp only [replayStep, trrApply]
  split <;> rfl

theorem step_ar_eq (x : ReplayedWorkflowRun) {rid' : Nat}
    (hrid : x.run_id = rid') (n : Nat) (ts : Int) (request_id : String)
    (invocation_id : Nat) (tool_id risk preview : String) :
    replayStep (some x)
        { seq := n, ts_ms := ts,
          event := .ApprovalRequested request_id rid' invocation_id tool_id
            risk preview } =
      some (arApply x request_id invocation_id tool_id) := by
  simp only [replayStep, arApply, hrid, if_pos]

theorem step_ares_eq (x : ReplayedWorkflowRun) {rid' : Nat}
    {request_id : String} (hrid : x.run_id = rid')
    (hpend : x.pending_request_id = some request_id) (n : Nat) (ts : Int)
    (decision : String) :
    replayStep (some x)
        { seq := n, ts_ms := ts,
          event := .ApprovalResolved request_id rid' decision } =
      some (aresApply x decision) := by
  simp only [replayStep, aresApply]
  rw [if_pos ⟨hrid, hpend⟩]

theorem step_tii_eq (latest : Option ReplayedWorkflowRun) (n : Nat)
    (ts : Int) (rid' inv : Nat) (tool : String) :
    replayStep latest
        { seq := n, ts_ms := ts, event := .ToolInvocationIssued rid' inv tool } =
      latest := rfl

theorem interruptedOf_run_id (x : ReplayedWorkflowRun) :
    (interruptedOf x).run_id = x.run_id := rfl

theorem wscApply_interrupted (x : ReplayedWorkflowRun)
    (st : PersistedWorkflowStatus) (idx : Nat) (reason : Option String) :
    wscApply (interruptedOf x) st idx reason = wscApply x st idx reason := by
  unfold wscApply interruptedOf
  split <;> rfl

theorem arApply_interrupted (x : ReplayedWorkflowRun) (request_id : String)
    (invocation_id : Nat) (tool_id : String) :
    arApply (interruptedOf x) request_id invocation_id tool_id =
      arApply x request_id invocation_id tool_id := rfl

theorem trrApply_interrupted (x : ReplayedWorkflowRun) (rid' : Nat) (st : String) :
    trrApply (interruptedOf x) rid' st = interruptedOf (trrApply x rid' st) := by
  unfold trrApply
  rw [interruptedOf_run_id]
  split <;> rfl

theorem wscApply_run_id (x : ReplayedWorkflowRun) (st : PersistedWorkflowStatus)
    (idx : Nat) (reason : Option String) :
    (wscApply x st idx reason).run_id = x.run_id := by
  simp only [wscApply]
  split <;> rfl

theorem wscApply_status (x : ReplayedWorkflowRun) (st : PersistedWorkflowStatus)
    (idx : Nat) (reason : Option String) :
    (wscApply x st idx reason).status = st := by
  simp only [wscApply]
  split <;> rfl

theorem trrApply_run_id (x : ReplayedWorkflowRun) (rid' : Nat) (st : String) :
    (trrApply x rid' st).run_id = x.run_id := by
  simp only [trrApply]
  split <;> rfl

theorem trrApply_status (x : ReplayedWorkflowRun) (rid' : Nat) (st : String) :
    (trrApply x rid' st).status = x.status := by
  simp only [trrApply]
  split <;> rfl

theorem arApply_run_id (x : ReplayedWorkflowRun) (request_id : String)
    (invocation_id : Nat) (tool_id : String) :
    (arApply x request_id invocation_id tool_id).run_id = x.run_id := rfl

theorem aresApply_run_id (x : ReplayedWorkflowRun) (decision : String) :
    (aresApply x decision).run_id = x.run_id := rfl

/-! ### The snapshot invariants -/

/-- The snapshot is consistent with the journal: bounded replay from it
over the tail equals full replay. -/
def Good (sn : PersistedShellSnapshot) (log : List PersistedShellEventRecord) :
    Prop :=
  sn.seq ≤ log.length ∧
  replay_workflow_from sn.workflow (logTail sn.seq log) =
    replay_workflow_from none log

/-- The snapshot is the demotion of the live `Running` run `r` (the
current full-replay result) and its tail replay yields exactly
`interruptedOf r`. -/
def AlmostFor (r : ReplayedWorkflowRun) (sn : PersistedShellSnapshot)
    (log : List PersistedShellEventRecord) : Prop :=
  sn.seq ≤ log.length ∧ r.status = .Running ∧
  replay_workflow_from sn.workflow (logTail sn.seq log) =
    some (interruptedOf r)

/-- Mid-run invariant: journal seqs are positional, the full replay is
the live run `r` of the current workflow, and every written snapshot is
either reconciled (`Good`) or the pending demotion of `r`. -/
def Inv (rid : Nat) (log : List PersistedShellEventRecord)
    (snaps : List PersistedShellSnapshot) (r : ReplayedWorkflowRun) : Prop :=
  SeqOk log ∧ replay_workflow_from none log = some r ∧ r.run_id = rid ∧
  ∀ sn ∈ snaps, Good sn log ∨ AlmostFor r sn log

/-- Post-reconciliation invariant: every snapshot is `Good`. -/
def InvG (rid : Nat) (log : List PersistedShellEventRecord)
    (snaps : List PersistedShellSnapshot) (r : ReplayedWorkflowRun) : Prop :=
  SeqOk log ∧ replay_workflow_from none log = some r ∧ r.run_id = rid ∧
  ∀ sn ∈ snaps, Good sn log

theorem invg_to_inv {rid log snaps r} (h : InvG rid log snaps r) :
    Inv rid log snaps r :=
  ⟨h.1, h.2.1, h.2.2.1, fun sn hm => Or.inl (h.2.2.2 sn hm)⟩

theorem good_append {sn : PersistedShellSnapshot}
    {log : List PersistedShellEventRecord} (h : SeqOk log) (hg : Good sn log)
    (ts : Int) (e : PersistedShellEvent) : Good sn (withAppend log ts e) := by
  refine ⟨by have := hg.1; rw [withAppend_length]; omega, ?_⟩
  rw [replay_tail_append _ h hg.1 ts e, replay_full_append none h ts e, hg.2]

/-- Appending any event keeps `InvG`, provided the event's step on the
live run is computed. -/
theorem invg_append {rid : Nat} {log : List PersistedShellEventRecord}
    {snaps : List PersistedShellSnapshot} {r r' : ReplayedWorkflowRun}
    (hinv : InvG rid log snaps r) (ts : Int) (e : PersistedShellEvent)
    (hstep : replayStep (some r)
      { seq := log.length + 1, ts_ms := ts, event := e } = some r')
    (hrid' : r'.run_id = rid) : InvG rid (withAppend log ts e) snaps r' := by
  obtain ⟨hok, hre, _, hsn⟩ := hinv
  refine ⟨seqOk_withAppend hok, ?_, hrid', fun sn hm => good_append hok (hsn sn hm) ts e⟩
  rw [replay_full_append none hok ts e, hre, hstep]

/-- Appending an event that overwrites `status` and `blocked_reason`
identically on the live run and on its demotion reconciles every
`Almost` snapshot. -/
theorem inv_append_overwrite {rid : Nat} {log : List PersistedShellEventRecord}
    {snaps : List PersistedShellSnapshot} {r r' : ReplayedWorkflowRun}
    (hinv : Inv rid log snaps r) (ts : Int) (e : PersistedShellEvent)
    (hstep : replayStep (some r)
      { seq := log.length + 1, ts_ms := ts, event := e } = some r')
    (hint : replayStep (some (interruptedOf r))
      { seq := log.length + 1, ts_ms := ts, event := e } = some r')
    (hrid' : r'.run_id = rid) : InvG rid (withAppend log ts e) snaps r' := by
  obtain ⟨hok, hre, _, hsn⟩ := hinv
  refine ⟨seqOk_withAppend hok, ?_, hrid', ?_⟩
  · rw [replay_full_append none hok ts e, hre, hstep]
  · intro sn hm
    rcases hsn sn hm with hg | ha
    · exact good_append hok hg ts e
    · refine ⟨by have := ha.1; rw [withAppend_length]; omega, ?_⟩
      rw [replay_tail_append _ hok ha.1 ts e, ha.2.2, hint,
        replay_full_append none hok ts e, hre, hstep]

/-- Appending an event that commutes with the demotion (`TII`, `TRR`)
keeps the invariant, `Almost` snapshots staying `Almost` for the new
live run. -/
theorem inv_append_keep {rid : Nat} {log : List PersistedShellEventRecord}
    {snaps : List PersistedShellSnapshot} {r r' : ReplayedWorkflowRun}
    (hinv : Inv rid log snaps r) (ts : Int) (e : PersistedShellEvent)
    (hstep : replayStep (some r)
      { seq := log.length + 1, ts_ms := ts, event := e } = some r')
    (hint : replayStep (some (interruptedOf r))
      { seq := log.length + 1, ts_ms := ts, event := e } =
        some (interruptedOf r'))
    (hstat : r'.status = r.status)
    (hrid' : r'.run_id = rid) : Inv rid (withAppend log ts e) snaps r' := by
  obtain ⟨hok, hre, _, hsn⟩ := hinv
  refine ⟨seqOk_withAppend hok, ?_, hrid', ?_⟩
  · rw [replay_full_append none hok ts e, hre, hstep]
  · intro sn hm
    rcases hsn sn hm with hg | ha
    · exact Or.inl (good_append hok hg ts e)
    · refine Or.inr ⟨by have := ha.1; rw [withAppend_length]; omega,
        by rw [hstat]; exact ha.2.1, ?_⟩
      rw [replay_tail_append _ hok ha.1 ts e, ha.2.2, hint]

theorem replay_workflow_from_nil (w : Option ReplayedWorkflowRun) :
    replay_workflow_from w [] = w := rfl

theorem snapAfter_good {log : List PersistedShellEventRecord}
    {r : ReplayedWorkflowRun} (hok : SeqOk log)
    (hre : replay_workflow_from none log = some r)
    (hns : ¬ r.status = .Running) : Good (snapAfter log) log := by
  refine ⟨Nat.le_refl _, ?_⟩
  show replay_workflow_from ((replay_latest_workflow log).map demote)
    (logTail log.length log) = replay_workflow_from none log
  rw [logTail_self hok, replay_workflow_from_nil, replay_latest_workflow, hre]
  simp [demote, hns]

theorem snapAfter_almost {log : List PersistedShellEventRecord}
    {r : ReplayedWorkflowRun} (hok : SeqOk log)
    (hre : replay_workflow_from none log = some r)
    (hs : r.status = .Running) : AlmostFor r (snapAfter log) log := by
  refine ⟨Nat.le_refl _, hs, ?_⟩
  show replay_workflow_from ((replay_latest_workflow log).map demote)
    (logTail log.length log) = some (interruptedOf r)
  rw [logTail_self hok, replay_workflow_from_nil, replay_latest_workflow, hre]
  simp [demote, hs]

theorem invg_snap_terminal {rid : Nat} {log : List PersistedShellEventRecord}
    {snaps : List PersistedShellSnapshot} {r : ReplayedWorkflowRun}
    (hinv : InvG rid log snaps r) (hns : ¬ r.status = .Running) :
    InvG rid log (snaps ++ [snapAfter log]) r := by
  obtain ⟨hok, hre, hrid, hsn⟩ := hinv
  refine ⟨hok, hre, hrid, ?_⟩
  intro sn hm
  rcases List.mem_append.mp hm with hm | hm
  · exact hsn sn hm
  · rw [List.mem_singleton.mp hm]
    exact snapAfter_good hok hre hns

theorem invg_snap {rid : Nat} {log : List PersistedShellEventRecord}
    {snaps : List PersistedShellSnapshot} {r : ReplayedWorkflowRun}
    (hinv : InvG rid log snaps r) :
    Inv rid log (snaps ++ [snapAfter log]) r := by
  obtain ⟨hok, hre, hrid, hsn⟩ := hinv
  refine ⟨hok, hre, hrid, ?_⟩
  intro sn hm
  rcases List.mem_append.mp hm with hm | hm
  · exact Or.inl (hsn sn hm)
  · rw [List.mem_singleton.mp hm]
    by_cases hs : r.status = .Running
    · exact Or.inr (snapAfter_almost hok hre hs)
    · exact Or.inl (snapAfter_good hok hre hs)

/-! ### Per-event invariant transitions for the driver's appends -/

theorem aresApply_status (x : ReplayedWorkflowRun) (decision : String) :
    (aresApply x decision).status =
      if decision = "approved" then .Running else .Blocked := rfl

theorem inv_wsc {rid : Nat} {log : List PersistedShellEventRecord}
    {snaps : List PersistedShellSnapshot} {r : ReplayedWorkflowRun}
    (hinv : Inv rid log snaps r) (ts : Int) (st : PersistedWorkflowStatus)
    (idx : Nat) (rs : Option String) :
    InvG rid (withAppend log ts (.WorkflowStatusChanged rid st idx rs)) snaps
      (wscApply r st idx rs) := by
  have hrid := hinv.2.2.1
  refine inv_append_overwrite hinv ts _ (step_wsc_eq r hrid _ _ _ _ _) ?_ ?_
  · rw [step_wsc_eq (interruptedOf r) (by rw [interruptedOf_run_id]; exact hrid)
      _ _ _ _ _, wscApply_interrupted]
  · rw [wscApply_run_id]
    exact hrid

theorem inv_ar {rid : Nat} {log : List PersistedShellEventRecord}
    {snaps : List PersistedShellSnapshot} {r : ReplayedWorkflowRun}
    (hinv : Inv rid log snaps r) (ts : Int) (request_id : String)
    (inv' : Nat) (tool risk preview : String) :
    InvG rid
      (withAppend log ts (.ApprovalRequested request_id rid inv' tool risk preview))
      snaps (arApply r request_id inv' tool) := by
  have hrid := hinv.2.2.1
  refine inv_append_overwrite hinv ts _ (step_ar_eq r hrid _ _ _ _ _ _ _) ?_ ?_
  · rw [step_ar_eq (interruptedOf r) (by rw [interruptedOf_run_id]; exact hrid)
      _ _ _ _ _ _ _, arApply_interrupted]
  · rw [arApply_run_id]
    exact hrid

theorem invg_wsc {rid : Nat} {log : List PersistedShellEventRecord}
    {snaps : List PersistedShellSnapshot} {r : ReplayedWorkflowRun}
    (hinv : InvG rid log snaps r) (ts : Int) (st : PersistedWorkflowStatus)
    (idx : Nat) (rs : Option String) :
    InvG rid (withAppend log ts (.WorkflowStatusChanged rid st idx rs)) snaps
      (wscApply r st idx rs) := by
  have hrid := hinv.2.2.1
  refine invg_append hinv ts _ (step_wsc_eq r hrid _ _ _ _ _) ?_
  rw [wscApply_run_id]
  exact hrid

theorem invg_ares {rid : Nat} {log : List PersistedShellEventRecord}
    {snaps : List PersistedShellSnapshot} {r : ReplayedWorkflowRun}
    {request_id : String} (hinv : InvG rid log snaps r) (ts : Int)
    (decision : String) (hpend : r.pending_request_id = some request_id) :
    InvG rid (withAppend log ts (.ApprovalResolved request_id rid decision))
      snaps (aresApply r decision) := by
  have hrid := hinv.2.2.1
  refine invg_append hinv ts _ (step_ares_eq r hrid hpend _ _ _) ?_
  rw [aresApply_run_id]
  exact hrid

theorem inv_tii {rid : Nat} {log : List PersistedShellEventRecord}
    {snaps : List PersistedShellSnapshot} {r : ReplayedWorkflowRun}
    (hinv : Inv rid log snaps r) (ts : Int) (rid' inv' : Nat) (tool : String) :
    Inv rid (withAppend log ts (.ToolInvocationIssued rid' inv' tool)) snaps r :=
  inv_append_keep hinv ts _ (step_tii_eq _ _ _ _ _ _) (step_tii_eq _ _ _ _ _ _)
    rfl hinv.2.2.1

theorem inv_trr {rid : Nat} {log : List PersistedShellEventRecord}
    {snaps : List PersistedShellSnapshot} {r : ReplayedWorkflowRun}
    (hinv : Inv rid log snaps r) (ts : Int) (rid' inv' : Nat) (tool st : String) :
    Inv rid (withAppend log ts (.ToolResultRecorded rid' inv' tool st)) snaps
      (trrApply r rid' st) := by
  refine inv_append_keep hinv ts _ (step_trr_eq r _ _ _ _ _ _) ?_
    (trrApply_status r rid' st) ?_
  · rw [step_trr_eq (interruptedOf r) _ _ _ _ _ _, trrApply_interrupted]
  · rw [trrApply_run_id]
    exact hinv.2.2.1

/-! ### The loop preserves and finally discharges the invariant -/

theorem loopRun_invg {rid step inv : Nat}
    {log log' : List PersistedShellEventRecord}
    {snaps snaps' : List PersistedShellSnapshot}
    (h : LoopRun rid step inv log snaps log' snaps') :
    ∀ r, Inv rid log snaps r → ∃ r', InvG rid log' snaps' r' := by
  induction h with
  | deny step inv log log₁ snaps ts reason hstep h₁ =>
    intro r hinv
    subst h₁
    refine ⟨_, invg_snap_terminal (inv_wsc hinv ts .Blocked step (some reason)) ?_⟩
    rw [wscApply_status]
    decide
  | approvalDenied step inv log log₁ log₂ log₃ snaps ts₁ ts₂ ts₃ risk preview
      hstep h₁ h₂ h₃ =>
    intro r hinv
    subst h₁
    subst h₂
    subst h₃
    have hg₁ := inv_ar hinv ts₁ (reqId rid inv) inv (toolIdAt step) risk preview
    have hg₂ := invg_ares hg₁ ts₂ "denied"
      (show (arApply r (reqId rid inv) inv (toolIdAt step)).pending_request_id =
        some (reqId rid inv) from rfl)
    have hg₂s := invg_snap_terminal hg₂ (by rw [aresApply_status]; decide)
    have hg₃ := invg_wsc hg₂s ts₃ .Blocked step (some "approval denied")
    have hfin := invg_snap_terminal hg₃ (by rw [wscApply_status]; decide)
    rw [List.append_assoc] at hfin
    exact ⟨_, hfin⟩
  | toolFail step inv log log₁ log₂ log₃ snaps ts₁ ts₂ ts₃ st pst hstep hout
      h₁ h₂ h₃ =>
    intro r hinv
    subst h₁
    subst h₂
    subst h₃
    have hi₁ := inv_tii hinv ts₁ rid inv (toolIdAt step)
    have hi₂ := inv_trr hi₁ ts₂ rid inv (toolIdAt step) st
    have hg₃ := inv_wsc hi₂ ts₃ pst (step + 1)
      (some "tool execution did not succeed")
    refine ⟨_, invg_snap_terminal hg₃ ?_⟩
    rw [wscApply_status]
    rcases hout with ⟨_, hp⟩ | ⟨_, hp⟩ <;> subst hp <;> decide
  | toolSucceed step inv log log₁ log₂ log₃ log' snaps snaps' ts₁ ts₂ ts₃
      hstep h₁ h₂ h₃ hrest ih =>
    intro r hinv
    subst h₁
    subst h₂
    subst h₃
    have hi₁ := inv_tii hinv ts₁ rid inv (toolIdAt step)
    have hi₂ := inv_trr hi₁ ts₂ rid inv (toolIdAt step) "succeeded"
    have hg₃ := inv_wsc hi₂ ts₃ .Running (step + 1) none
    exact ih _ (invg_snap hg₃)
  | approvedToolFail step inv log log₁ log₂ log₃ log₄ log₅ snaps ts₁ ts₂ ts₃
      ts₄ ts₅ risk preview st pst hstep hout h₁ h₂ h₃ h₄ h₅ =>
    intro r hinv
    subst h₁
    subst h₂
    subst h₃
    subst h₄
    subst h₅
    have hg₁ := inv_ar hinv ts₁ (reqId rid inv) inv (toolIdAt step) risk preview
    have hg₂ := invg_ares hg₁ ts₂ "approved"
      (show (arApply r (reqId rid inv) inv (toolIdAt step)).pending_request_id =
        some (reqId rid inv) from rfl)
    have hi₂ := invg_snap hg₂
    have hi₃ := inv_tii hi₂ ts₃ rid inv (toolIdAt step)
    have hi₄ := inv_trr hi₃ ts₄ rid inv (toolIdAt step) st
    have hg₅ := inv_wsc hi₄ ts₅ pst (step + 1)
      (some "tool execution did not succeed")
    have hfin := invg_snap_terminal hg₅ (by
      rw [wscApply_status]
      rcases hout with ⟨_, hp⟩ | ⟨_, hp⟩ <;> subst hp <;> decide)
    rw [List.append_assoc] at hfin
    exact ⟨_, hfin⟩
  | approvedToolSucceed step inv log log₁ log₂ log₃ log₄ log₅ log' snaps snaps'
      ts₁ ts₂ ts₃ ts₄ ts₅ risk preview hstep h₁ h₂ h₃ h₄ h₅ hrest ih =>
    intro r hinv
    subst h₁
    subst h₂
    subst h₃
    subst h₄
    subst h₅
    have hg₁ := inv_ar hinv ts₁ (reqId rid inv) inv (toolIdAt step) risk preview
    have hg₂ := invg_ares hg₁ ts₂ "approved"
      (show (arApply r (reqId rid inv) inv (toolIdAt step)).pending_request_id =
        some (reqId rid inv) from rfl)
    have hi₂ := invg_snap hg₂
    have hi₃ := inv_tii hi₂ ts₃ rid inv (toolIdAt step)
    have hi₄ := inv_trr hi₃ ts₄ rid inv (toolIdAt step) "succeeded"
    have hg₅ := inv_wsc hi₄ ts₅ .Running (step + 1) none
    have hi₅ := invg_snap hg₅
    rw [List.append_assoc] at hi₅
    exact ih _ hi₅
  | done step inv log log₂ snaps ts hstep h₂ =>
    intro r hinv
    subst h₂
    refine ⟨_, invg_snap_terminal (inv_wsc hinv ts .Completed 4 none) ?_⟩
    rw [wscApply_status]
    decide
  | doneCommit step inv log log₁ log₂ snaps ts₀ ts hstep h₁ h₂ =>
    intro r hinv
    subst h₁
    subst h₂
    have hi₁ := inv_tii hinv ts₀ rid inv "git_commit"
    refine ⟨_, invg_snap_terminal (inv_wsc hi₁ ts .Completed 4 none) ?_⟩
    rw [wscApply_status]
    decide

/-- The run started by `WorkflowRunStarted{run_id = 1}`. -/
def startRun : ReplayedWorkflowRun :=
  { run_id := 1, template_id := "scan_plan_diff_verify",
    execution_mode := .Simulated, step_index := 0, status := .Running,
    pending_request_id := none, pending_tool_id := none,
    pending_invocation_id := none, next_invocation_id := 1,
    blocked_reason := none }

theorem newRun_invg {log : List PersistedShellEventRecord}
    {snaps : List PersistedShellSnapshot} (h : NewRun log snaps) :
    ∃ r, InvG 1 log snaps r := by
  cases h with
  | mk log₁ log' snaps' ts tier pp h₁ hloop =>
    subst h₁
    apply loopRun_invg hloop startRun
    have hok : SeqOk (withAppend [] ts
        (.WorkflowRunStarted 1 "scan_plan_diff_verify" .Simulated tier pp)) := by
      exact ⟨rfl, trivial⟩
    have hre : replay_workflow_from none (withAppend [] ts
        (.WorkflowRunStarted 1 "scan_plan_diff_verify" .Simulated tier pp)) =
        some startRun := rfl
    refine ⟨hok, hre, rfl, ?_⟩
    intro sn hm
    rw [List.mem_singleton.mp hm]
    exact Or.inr (snapAfter_almost hok hre rfl)

/-! ## C1: full replay equals bounded replay from every snapshot -/

/-- C1: for every event log produced by a complete `run` invocation of
the driver over a fresh store and every snapshot `save_snapshots` wrote
during that run, replaying the full log from scratch equals bounded
replay from the snapshot's demoted workflow over `load_since(snapshot.seq)`. -/
theorem replay_snapshot_idempotent
    {log : List PersistedShellEventRecord}
    {snaps : List PersistedShellSnapshot} (h : NewRun log snaps) :
    ∀ sn ∈ snaps,
      replay_workflow_from sn.workflow (logTail sn.seq log) =
        replay_workflow_from none log := by
  obtain ⟨r, hinvg⟩ := newRun_invg h
  intro sn hm
  exact (hinvg.2.2.2 sn hm).2

/-- Persona policy payload for the C1 witness trace. -/
def c1PersonaPolicy : PersistedPersonaPolicy :=
  { tier_ceiling := "permissive", explanation_depth := "brief",
    output_format := "technical-first" }

/-- Witness journal after `WorkflowRunStarted`. -/
def c1Log₁ : List PersistedShellEventRecord :=
  withAppend [] 0
    (.WorkflowRunStarted 1 "scan_plan_diff_verify" .Simulated "balanced"
      c1PersonaPolicy)

/-- Witness journal after a policy denial at step 0. -/
def c1Log₂ : List PersistedShellEventRecord :=
  withAppend c1Log₁ 0
    (.WorkflowStatusChanged 1 .Blocked 0 (some "blocked by risk policy"))

/-- Witness for C1: a concrete two-event run (started, then denied at
step 0) with its two snapshots; bounded replay from the first snapshot
(whose workflow was demoted to `Blocked{"interrupted"}`) equals the
full replay. -/
theorem replay_snapshot_idempotent_witness :
    NewRun c1Log₂ [snapAfter c1Log₁, snapAfter c1Log₂] ∧
    replay_workflow_from (snapAfter c1Log₁).workflow
        (logTail (snapAfter c1Log₁).seq c1Log₂) =
      replay_workflow_from none c1Log₂ := by
  have htr : NewRun c1Log₂ [snapAfter c1Log₁, snapAfter c1Log₂] := by
    refine NewRun.mk c1Log₁ c1Log₂ _ 0 "balanced" c1PersonaPolicy rfl ?_
    exact LoopRun.deny 0 1 c1Log₁ c1Log₂ [snapAfter c1Log₁] 0
      "blocked by risk policy" (by decide) rfl
  exact ⟨htr, replay_snapshot_idempotent htr (snapAfter c1Log₁)
    (List.mem_cons_self _ _)⟩

end Dao
